import Mathlib

set_option maxHeartbeats 1000000

namespace SignalGate

/- ==================================================================
   Component C1 of the spec: the ring buffer (circularBuffer.js).
   A JS array `buffer` plus a fixed `capacity`; `add` shifts the oldest
   element out when the array is at capacity, then pushes the new one.
   ================================================================== -/

/-- Shallow embedding of `CircularBuffer` from `circularBuffer.js`: the
backing JS array is a `List`, oldest first. -/
structure CircularBuffer (α : Type) where
  capacity : Nat
  buffer : List α

namespace CircularBuffer

/-- The freshly constructed buffer, `new CircularBuffer(capacity)`. -/
def mkEmpty (α : Type) (capacity : Nat) : CircularBuffer α :=
  ⟨capacity, []⟩

/-- `add(item)`: if `buffer.length === capacity` the oldest element is
shifted out, then the item is pushed. -/
def add (b : CircularBuffer α) (item : α) : CircularBuffer α :=
  if b.buffer.length = b.capacity then
    { b with buffer := b.buffer.tail ++ [item] }
  else
    { b with buffer := b.buffer ++ [item] }

/-- `get(i)`: element at index `i`, 0 = oldest; `undefined` out of range. -/
def get (b : CircularBuffer α) (i : Nat) : Option α :=
  b.buffer.get? i

/-- `getNewest()`: the most recently added element. -/
def getNewest (b : CircularBuffer α) : Option α :=
  b.buffer.getLast?

/-- `toArray()`: a copy of the contents, oldest to newest. -/
def toArray (b : CircularBuffer α) : List α :=
  b.buffer

/-- `size`: the current number of elements. -/
def size (b : CircularBuffer α) : Nat :=
  b.buffer.length

/-- A sequence of `add` calls, first element of `xs` added first. -/
def addAll (b : CircularBuffer α) (xs : List α) : CircularBuffer α :=
  xs.foldl add b

end CircularBuffer

/- ==================================================================
   Component C2 of the spec: the price tape (priceTape.js).
   Per-pair second-resolution OHLCV bars; prices and quote volumes are
   JS doubles, modelled as rationals.
   ================================================================== -/

/-- One second bar as stored by the tape: `(open, high, low, close,
volume)`. -/
structure TapeBar where
  open_ : ℚ
  high : ℚ
  low : ℚ
  close : ℚ
  volume : ℚ
  deriving DecidableEq

/-- A flat gap-fill bar: all four prices equal to the previous close and
zero volume. -/
def flatBar (c : ℚ) : TapeBar :=
  ⟨c, c, c, c, 0⟩

/- ==================================================================
   Tape CSV encoding and decoding (the `member` strings of
   `_pushBarToRedis` and the `split(",").map(Number)` of `getSecBars`).
   JS strings are modelled as lists of characters.  A finite JS double
   prints as its shortest exact decimal and `Number` parses it back;
   here the five bar fields are rationals with terminating decimal
   expansions, printed exactly and reparsed.  The claim restricts
   itself to non-negative fields, so no sign handling is modelled.
   ================================================================== -/

/-- The character of a decimal digit. -/
def digitToChar (d : ℕ) : Char :=
  Char.ofNat (48 + d)

/-- The digit of a decimal character. -/
def charToDigit (c : Char) : ℕ :=
  c.toNat - 48

/-- Decimal rendering of a natural number, most significant digit
first (`String(n)` for a non-negative integer). -/
def natToChars (n : ℕ) : List Char :=
  if n = 0 then ['0'] else (Nat.digits 10 n).reverse.map digitToChar

/-- Decimal parsing of a digit string (`Number` on digits). -/
def charsToNat (cs : List Char) : ℕ :=
  Nat.ofDigits 10 ((cs.map charToDigit).reverse)

/-- The smallest exponent `e` with `den ∣ 10^e`, 0 when none exists up
to `den` (i.e. when the expansion does not terminate). -/
def decExp (den : ℕ) : ℕ :=
  (((List.range (den + 1)).find? (fun e => 10 ^ e % den = 0))).getD 0

/-- A rational whose decimal expansion terminates: its reduced
denominator divides the power of ten found by `decExp`. -/
def terminatingDec (q : ℚ) : Prop :=
  10 ^ decExp q.den % q.den = 0

instance (q : ℚ) : Decidable (terminatingDec q) := by
  unfold terminatingDec
  infer_instance

/-- The fractional digits: `fr` rendered with leading zeros to exactly
`e` places. -/
def fracChars (fr e : ℕ) : List Char :=
  List.replicate (e - (Nat.digits 10 fr).length) '0'
    ++ (Nat.digits 10 fr).reverse.map digitToChar

/-- Shortest exact decimal rendering of a non-negative terminating
rational, as JS prints the double. -/
def ratToChars (q : ℚ) : List Char :=
  let e := decExp q.den
  let a := q.num.toNat * 10 ^ e / q.den
  if e = 0 then natToChars a
  else natToChars (a / 10 ^ e) ++ '.' :: fracChars (a % 10 ^ e) e

/-- `String.prototype.split(sep)` on a one-character separator. -/
def splitOnChar (sep : Char) : List Char → List (List Char)
  | [] => [[]]
  | c :: rest =>
    match splitOnChar sep rest with
    | [] => [[]]
    | h :: t => if c = sep then [] :: h :: t else (c :: h) :: t

/-- `Number(s)` on a non-negative decimal string: integer part, and the
fractional part scaled by its length. -/
def parseDecimal (cs : List Char) : ℚ :=
  match splitOnChar '.' cs with
  | [intPart] => (charsToNat intPart : ℚ)
  | [intPart, fracPart] =>
    (charsToNat intPart : ℚ) + (charsToNat fracPart : ℚ) / 10 ^ fracPart.length
  | _ => 0

/-- The `member` string of `_pushBarToRedis`: the five floats joined by
commas in order open, high, low, close, volume. -/
def encodeBar (b : TapeBar) : List Char :=
  ratToChars b.open_ ++ ',' ::
    (ratToChars b.high ++ ',' ::
      (ratToChars b.low ++ ',' ::
        (ratToChars b.close ++ ',' :: ratToChars b.volume)))

/-- The decoding of `getSecBars`: split on commas and parse the five
numbers. -/
def decodeBar (cs : List Char) : Option TapeBar :=
  match splitOnChar ',' cs with
  | [o, h, l, c, v] =>
    some ⟨parseDecimal o, parseDecimal h, parseDecimal l, parseDecimal c, parseDecimal v⟩
  | _ => none

/-- Shallow embedding of `BarBuilder` from `priceTape.js`.  The sorted
per-pair redis key is modelled by `store`, the sorted set's contents as
a list of `(score, member)` pairs whose member strings are pairwise
distinct: redis `ZADD` keys entries by member, so `zadd` of an existing
member string moves that member to the new score instead of adding a
second entry.  A member is the CSV string of the bar's five floats
(`encodeBar`); the bar is kept alongside its score for readability. -/
structure BarBuilder where
  secBucketTS : Option ℤ
  open_ : ℚ
  high : ℚ
  low : ℚ
  close : ℚ
  volume : ℚ
  store : List (ℤ × TapeBar)

namespace BarBuilder

/-- `new BarBuilder(pair, redis)`: no current bar, zero fields. -/
def mk0 : BarBuilder :=
  ⟨none, 0, 0, 0, 0, 0, []⟩

/-- `_pushBarToRedis(secBucket, open, high, low, close, volume)`: a redis
`ZADD key secBucket member` with member the comma-joined five floats.
`ZADD` keys by member: any existing entry with the same member string is
moved to the new score, so the old entry is removed before the new
`(score, member)` pair is added. -/
def pushBarToRedis (b : BarBuilder) (sec : ℤ) (o h l c v : ℚ) : BarBuilder :=
  { b with store :=
      b.store.filter (fun e => encodeBar e.2 ≠ encodeBar ⟨o, h, l, c, v⟩)
        ++ [(sec, ⟨o, h, l, c, v⟩)] }

/-- `_startNewBar(secBucket, price, volumeUSDT)`. -/
def startNewBar (b : BarBuilder) (sec : ℤ) (price volumeUSDT : ℚ) : BarBuilder :=
  { b with
    secBucketTS := some sec
    open_ := price
    high := price
    low := price
    close := price
    volume := volumeUSDT }

/-- `_flushCurrentBar()`: push the in-memory bar to the store. -/
def flushCurrentBar (b : BarBuilder) : BarBuilder :=
  match b.secBucketTS with
  | none => b
  | some ts => b.pushBarToRedis ts b.open_ b.high b.low b.close b.volume

/-- The gap-fill loop of `onTrade`: `for (let s = ts + 1; s < secBucket;
s++) pushBarToRedis(s, close, close, close, close, 0)`, each iteration a
member-keyed `zadd`. -/
def fillGap (b : BarBuilder) (ts secBucket : ℤ) : BarBuilder :=
  ((List.range (secBucket - ts - 1).toNat).map
      (fun (k : ℕ) => ts + 1 + (k : ℤ))).foldl
    (fun acc s => acc.pushBarToRedis s acc.close acc.close acc.close acc.close 0)
    b

/-- `onTrade(price, volumeUSDT, tsMs)`: update the current second bar;
on a second advance, flush it, gap-fill every intervening second with a
flat zero-volume bar at the last close, and open a new bar. -/
def onTrade (b : BarBuilder) (price volumeUSDT : ℚ) (tsMs : ℤ) : BarBuilder :=
  let secBucket := Int.fdiv tsMs 1000
  match b.secBucketTS with
  | none => b.startNewBar secBucket price volumeUSDT
  | some ts =>
    if secBucket = ts then
      { b with
        high := max b.high price
        low := min b.low price
        close := price
        volume := b.volume + volumeUSDT }
    else if ts < secBucket then
      (((b.flushCurrentBar).fillGap ts secBucket)).startNewBar secBucket price volumeUSDT
    else
      b

end BarBuilder

/- ==================================================================
   Shared statistics helpers (the mean / variance folds that appear
   verbatim in symbolMonitor.js and workerPrice).
   ================================================================== -/

/-- Arithmetic mean, `reduce((a,b) => a+b, 0) / length`. -/
noncomputable def listMean (l : List ℝ) : ℝ :=
  l.sum / l.length

/-- Population variance, `reduce((s,x) => s + (x-mean)**2, 0) / length`. -/
noncomputable def popVariance (l : List ℝ) : ℝ :=
  (l.map (fun x => (x - listMean l) ^ 2)).sum / l.length

/-- Population standard deviation: the square root of `popVariance`. -/
noncomputable def popStdDev (l : List ℝ) : ℝ :=
  Real.sqrt (popVariance l)

/-- Sample variance, `reduce((s,r) => s + (r-mean)**2, 0) / (length-1)`. -/
noncomputable def sampleVariance (l : List ℝ) : ℝ :=
  (l.map (fun x => (x - listMean l) ^ 2)).sum / ((l.length : ℝ) - 1)

/- ==================================================================
   Component C6 of the spec: the trajectory worker (workerPrice in
   workerBook.js / workerPrice.js).  It reads 30 min of second bars,
   computes a realised sigma from log returns of consecutive closes and
   resamples the tape onto a fixed offset grid.
   ================================================================== -/

/-- A second bar as returned by `getSecBars`: timestamp back in ms plus
the five decoded CSV floats. -/
structure SecBar where
  t : ℤ
  open_ : ℚ
  high : ℚ
  low : ℚ
  close : ℚ
  volume : ℚ
  deriving DecidableEq

/-- The fixed offset grid (seconds) of the trajectory worker, copied
from the `offsets` constant of the source. -/
def offsets : List ℕ :=
  [1, 2, 3, 4, 5, 6, 7, 8, 9, 10, 11, 12, 13, 14, 15, 16, 17, 18, 19, 20,
   21, 22, 23, 24, 25, 26, 27, 28, 29, 30, 45, 60, 90, 120, 150, 180, 210,
   240, 270, 300, 330, 360, 390, 420, 450, 480, 510, 540, 570, 600, 660,
   720, 780, 840, 900, 960, 1020, 1080, 1140, 1200, 1260, 1320, 1380,
   1440, 1500, 1560, 1620, 1680, 1740, 1800]

/-- The `rets` array built by `realisedSigma`: for every consecutive pair
of bars whose earlier close is positive, `ln(close_i / close_{i-1})`. -/
noncomputable def logReturns (bars : List SecBar) : List ℝ :=
  (bars.zip bars.tail).filterMap
    (fun p => if 0 < p.1.close then
        some (Real.log ((p.2.close : ℝ) / (p.1.close : ℝ)))
      else none)

/-- `realisedSigma(bars)` from the trajectory worker: `null` for fewer
than two bars or when no return could be formed, otherwise the population
standard deviation of the log returns. -/
noncomputable def realisedSigma (bars : List SecBar) : Option ℝ :=
  if bars.length < 2 then none
  else if logReturns bars = [] then none
  else some (popStdDev (logReturns bars))

/-- One row of the persisted `prices` array. -/
structure PriceRow where
  tOffsetSec : ℕ
  price : Option ℚ
  volume : ℚ
  deriving DecidableEq

/-- The per-offset resampling step of `processJob`: the first bar with
`t >= startMs + sec*1000`, else the last available bar, else nothing. -/
def priceRow (bars : List SecBar) (startMs : ℤ) (sec : ℕ) : PriceRow :=
  let targetTime := startMs + (sec : ℤ) * 1000
  let nearestBar :=
    match bars.find? (fun bar => decide (targetTime ≤ bar.t)) with
    | some b => some b
    | none => bars.getLast?
  { tOffsetSec := sec
    price := nearestBar.map (fun b => b.close)
    volume := (nearestBar.map (fun b => b.volume)).getD 0 }

/-- The `priceRows` array of `processJob`: the grid mapped through
`priceRow`. -/
def processJobRows (bars : List SecBar) (startMs : ℤ) : List PriceRow :=
  offsets.map (priceRow bars startMs)

/- ==================================================================
   Component C3 of the spec: the symbol monitor (symbolMonitor.js).
   JS doubles are modelled as reals (`Math.log` / `Math.sqrt` are
   transcendental), millisecond timestamps as integers, trade counts as
   naturals.  `Number.isFinite` is identically true in this model.
   ================================================================== -/

/- Constants of `parameters.js` used by the monitor. -/
namespace params

def TIME_CACHE_DURATION_MS : ℤ := 60000

def PRICE_BUCKET_DURATION_MS : ℤ := 100

def AGG_TRADE_BUFFER_SIZE : ℕ := 250

def PRICE_LOOKBACK_WINDOW_MS : ℤ := 2500

noncomputable def PRICE_SLOPE_ALPHA : ℝ := 0.4

noncomputable def PRICE_SLOPE_ZSCORE : ℝ := 1.9

def MIN_TRADES_IN_1S : ℕ := 5

noncomputable def MAX_BID_ASK_SPREAD_PCT : ℝ := 0.003

noncomputable def EWMA_ALPHA_VOL_FAST : ℝ := 0.1175

noncomputable def EWMA_ALPHA_VOL_SLOW : ℝ := 0.000833

noncomputable def EWMA_ALPHA_VOL_MED : ℝ := 0.00416

noncomputable def MIN_VOLUME_SPIKE_RATIO_1M5M : ℝ := 1.5

noncomputable def VOLUME_ACCEL_ZSCORE : ℝ := 2.0

def SIGNAL_COOLDOWN_MS : ℤ := 6000

end params

/-- Module-level constants of `symbolMonitor.js`. -/
def EXCHANGE : String := "gate"

def PRICE_SLOPE_LOOKBACK_MS : ℤ := 2000

/-- `ALPHA_TAKER_RATIO`: EWMA smoothing for the taker flow ratio. -/
noncomputable def alphaTakerRatio : ℝ := 0.20

/-- `MAX_TAKER_RATIO`: hard cap for the taker flow ratio. -/
noncomputable def maxTakerRatio : ℝ := 100

noncomputable def EXPECTED_TRADE_SIZE_USD : ℝ := 500

noncomputable def MIN_EXECUTION_MULTIPLIER : ℝ := 5

noncomputable def MIN_24H_VOLUME_USD : ℝ := 1000000

/-- The `1e-8` guard denominators of the source. -/
noncomputable def eps8 : ℝ := 1 / 10 ^ 8

/-- Market-cap tier of a pair. -/
inductive Tier where
  | mega
  | large
  | mid
  | small
  | micro
  deriving DecidableEq

/-- A parsed aggregated trade as `addAggTrade` stores it. -/
structure AggTrade where
  price : ℝ
  quantity : ℝ
  eventTime : ℤ
  isBuyerMaker : Bool

/-- A 100 ms price bucket `{time, price}`. -/
structure PriceBucket where
  time : ℤ
  price : ℝ

/-- An entry of the return history `{time, return}`. -/
structure ReturnEntry where
  time : ℤ
  ret : ℝ

/-- The mutable per-pair state of `SymbolMonitor`, one field per JS
instance field. -/
structure MonitorState where
  symbol : String
  marketCapTier : Tier
  accelHistory : CircularBuffer ℝ
  accelSigma : ℝ
  priceSlope : ℝ
  priceSlopeHist : CircularBuffer ℝ
  priceSlopeSigma : ℝ
  cachedDayOfWeek : ℤ
  cachedHourOfDay : ℤ
  cachedIsWeekend : Bool
  lastTimeCacheUpdate : ℤ
  aggTrades : CircularBuffer AggTrade
  bestBid : ℝ
  bestAsk : ℝ
  bidAskMidpoint : ℝ
  current1sVolumeSum : ℝ
  current1sTradeCount : ℕ
  ewma1sVolumeFast : ℝ
  ewma5mVolumeBaseline : ℝ
  ewma1mVolumeBaseline : ℝ
  prevEwma1s : ℝ
  volumeAccel : ℝ
  current1sTakerBuyVolume : ℝ
  current1sTakerSellVolume : ℝ
  takerFlowImbalance : ℝ
  takerFlowMagnitude : ℝ
  takerFlowRatio : ℝ
  takerRatioEwma : ℝ
  lastPrice : ℝ
  priceBuckets : CircularBuffer PriceBucket
  lastPriceBucketTime : ℤ
  returnHistory : CircularBuffer ReturnEntry
  lastReturnCalcTime : ℤ
  lastPriceForReturn : ℝ
  volatility30s : ℝ
  volatility5m : ℝ
  volatilityRatio : ℝ
  effectiveSpreadHistory : CircularBuffer ℝ
  avgEffectiveSpread : ℝ
  tradeImbalanceHistory : CircularBuffer ℝ
  avgTradeImbalance : ℝ
  rsiPriceHistory : CircularBuffer ℝ
  rsiValue : ℝ
  avgGain : ℝ
  avgLoss : ℝ
  emaFast : ℝ
  emaSlow : ℝ
  ppoLine : ℝ
  signalLine : ℝ
  ppoHistogram : ℝ
  ema9 : ℝ
  ema21 : ℝ
  ema50 : ℝ
  emaAlignment9Over21 : Bool
  emaAlignment21Over50 : Bool
  emaStackedBullish : Bool
  emaStackedBearish : Bool
  emaStackedNeutral : Bool
  ema9_21_spread : ℝ
  ema21_50_spread : ℝ
  emaAlignmentStrength : ℝ
  priceAboveEma9 : Bool
  depth5ObImbalance : ℝ
  depth5BidVolume : ℝ
  depth5AskVolume : ℝ
  depth5TotalVolume : ℝ
  depth5VolumeRatio : ℝ
  imbalanceHistory : CircularBuffer ℝ
  imbalanceMA5 : ℝ
  imbalanceMA20 : ℝ
  previousImbalance : ℝ
  imbalanceVelocity : ℝ
  imbalanceVolatility : ℝ
  ticker24hrVolumeUsdt : ℝ
  ticker24hrPriceChangePct : ℝ
  ticker24hrHigh : ℝ
  ticker24hrLow : ℝ
  tickerLastPrice : ℝ
  lastSignalTriggerTime : ℤ

namespace SymbolMonitor

/-- `new SymbolMonitor(symbol, marketCapTier)`: the constructor's initial
state.  The `priceBuckets` capacity is
`ceil(PRICE_LOOKBACK_WINDOW_MS / PRICE_BUCKET_DURATION_MS) + 5 = 30`. -/
noncomputable def init (symbol : String) (marketCapTier : Tier) : MonitorState where
  symbol := symbol
  marketCapTier := marketCapTier
  accelHistory := CircularBuffer.mkEmpty ℝ 60
  accelSigma := 0
  priceSlope := 0
  priceSlopeHist := CircularBuffer.mkEmpty ℝ 40
  priceSlopeSigma := 0
  cachedDayOfWeek := 0
  cachedHourOfDay := 0
  cachedIsWeekend := false
  lastTimeCacheUpdate := 0
  aggTrades := CircularBuffer.mkEmpty AggTrade params.AGG_TRADE_BUFFER_SIZE
  bestBid := 0
  bestAsk := 0
  bidAskMidpoint := 0
  current1sVolumeSum := 0
  current1sTradeCount := 0
  ewma1sVolumeFast := 0
  ewma5mVolumeBaseline := 0
  ewma1mVolumeBaseline := 0
  prevEwma1s := 0
  volumeAccel := 0
  current1sTakerBuyVolume := 0
  current1sTakerSellVolume := 0
  takerFlowImbalance := 0
  takerFlowMagnitude := 0
  takerFlowRatio := 0
  takerRatioEwma := 0
  lastPrice := 0
  priceBuckets := CircularBuffer.mkEmpty PriceBucket 30
  lastPriceBucketTime := 0
  returnHistory := CircularBuffer.mkEmpty ReturnEntry 300
  lastReturnCalcTime := 0
  lastPriceForReturn := 0
  volatility30s := 0
  volatility5m := 0
  volatilityRatio := 1.0
  effectiveSpreadHistory := CircularBuffer.mkEmpty ℝ 60
  avgEffectiveSpread := 0
  tradeImbalanceHistory := CircularBuffer.mkEmpty ℝ 60
  avgTradeImbalance := 0
  rsiPriceHistory := CircularBuffer.mkEmpty ℝ 20
  rsiValue := 50
  avgGain := 0
  avgLoss := 0
  emaFast := 0
  emaSlow := 0
  ppoLine := 0
  signalLine := 0
  ppoHistogram := 0
  ema9 := 0
  ema21 := 0
  ema50 := 0
  emaAlignment9Over21 := false
  emaAlignment21Over50 := false
  emaStackedBullish := false
  emaStackedBearish := false
  emaStackedNeutral := false
  ema9_21_spread := 0
  ema21_50_spread := 0
  emaAlignmentStrength := 0
  priceAboveEma9 := false
  depth5ObImbalance := 0
  depth5BidVolume := 0
  depth5AskVolume := 0
  depth5TotalVolume := 0
  depth5VolumeRatio := 0
  imbalanceHistory := CircularBuffer.mkEmpty ℝ 20
  imbalanceMA5 := 0
  imbalanceMA20 := 0
  previousImbalance := 0
  imbalanceVelocity := 0
  imbalanceVolatility := 0
  ticker24hrVolumeUsdt := 0
  ticker24hrPriceChangePct := 0
  ticker24hrHigh := 0
  ticker24hrLow := 0
  tickerLastPrice := 0
  lastSignalTriggerTime := 0

end SymbolMonitor

/-- Mutating the object returned by `getNewest()` in place (the price
bucket overwrite in `performPeriodicCalculations`): replace the last
element. -/
def CircularBuffer.setNewest (b : CircularBuffer α) (x : α) : CircularBuffer α :=
  { b with buffer := b.buffer.dropLast ++ [x] }

/-- `new Date(now).getUTCHours()` for a millisecond timestamp. -/
def utcHourOfDay (now : ℤ) : ℤ :=
  (Int.fdiv now 3600000) % 24

/-- `new Date(now).getUTCDay()` for a millisecond timestamp (the Unix
epoch fell on a Thursday, day 4). -/
def utcDayOfWeek (now : ℤ) : ℤ :=
  (Int.fdiv now 86400000 + 4) % 7

namespace SymbolMonitor

/-- `updateTimeCache(now)`: refresh the cached UTC hour / day / weekend
flag at most once per `TIME_CACHE_DURATION_MS`. -/
def updateTimeCache (s : MonitorState) (now : ℤ) : MonitorState :=
  if params.TIME_CACHE_DURATION_MS ≤ now - s.lastTimeCacheUpdate then
    { s with
      cachedDayOfWeek := utcDayOfWeek now
      cachedHourOfDay := utcHourOfDay now
      cachedIsWeekend := decide (utcDayOfWeek now = 0 ∨ utcDayOfWeek now = 6)
      lastTimeCacheUpdate := now }
  else s

/-- `calculateAnnualizedVolatility(returns)`: sample standard deviation
annualised by the square root of the seconds per year; 0 below two
returns. -/
noncomputable def calculateAnnualizedVolatility (returns : List ℝ) : ℝ :=
  if returns.length < 2 then 0
  else Real.sqrt (sampleVariance returns) * Real.sqrt (365 * 24 * 60 * 60)

/-- `updateVolatility(currentPrice, now)`: at most once per second append
the log return, then recompute the 30 s and 5 m annualised volatilities
over the time-windowed return history. -/
noncomputable def updateVolatility (s : MonitorState) (currentPrice : ℝ) (now : ℤ) :
    MonitorState :=
  if 0 < s.lastPriceForReturn ∧ 1000 ≤ now - s.lastReturnCalcTime then
    let logReturn := Real.log (currentPrice / s.lastPriceForReturn)
    let rh := s.returnHistory.add ⟨now, logReturn⟩
    let allReturns := rh.toArray
    let returns30s := (allReturns.filter (fun r => decide (now - 30000 < r.time))).map
      (fun r => r.ret)
    let returns5m := (allReturns.filter (fun r => decide (now - 300000 < r.time))).map
      (fun r => r.ret)
    let s1 := { s with returnHistory := rh }
    let s2 :=
      if 10 ≤ returns30s.length then
        { s1 with volatility30s := calculateAnnualizedVolatility returns30s }
      else s1
    let s3 :=
      if 30 ≤ returns5m.length then
        { s2 with
          volatility5m := calculateAnnualizedVolatility returns5m
          volatilityRatio :=
            if 0 < calculateAnnualizedVolatility returns5m then
              s2.volatility30s / calculateAnnualizedVolatility returns5m
            else 1.0 }
      else s2
    { s3 with lastPriceForReturn := currentPrice, lastReturnCalcTime := now }
  else if s.lastPriceForReturn = 0 then
    { s with lastPriceForReturn := currentPrice, lastReturnCalcTime := now }
  else s

/-- The per-tier volatility cap of `checkSignal` (`?? 1.50` is
unreachable over the tier enumeration). -/
noncomputable def maxVolByTier : Tier → ℝ
  | Tier.mega => 0.50
  | Tier.large => 0.80
  | Tier.mid => 1.20
  | Tier.small => 2.00
  | Tier.micro => 3.00

/-- The `tierFloorMap` of `getAbsoluteVolumeFloor`. -/
noncomputable def tierFloorMap : Tier → ℝ
  | Tier.mega => 1000
  | Tier.large => 600
  | Tier.mid => 500
  | Tier.small => 400
  | Tier.micro => 300

/-- `getDynamicVolumeThreshold()` with the cached time context. -/
noncomputable def getDynamicVolumeThreshold (s : MonitorState) : ℝ :=
  if s.lastPrice = 0 ∨ s.volatility5m = 0 then 4.0
  else
    let normalizedVol := s.volatility30s / Real.sqrt (365 * 24 * 60 * 60)
    let regimeModifier : ℝ :=
      if 1.5 < s.volatilityRatio then 1.25
      else if s.volatilityRatio < 0.8 then 0.75
      else 1.0
    let volatilityFactor := 1 + normalizedVol * 50 * regimeModifier
    let sessionFactor : ℝ :=
      if s.cachedIsWeekend then 0.8
      else if 13 ≤ s.cachedHourOfDay ∧ s.cachedHourOfDay ≤ 17 then 1.5
      else if 0 ≤ s.cachedHourOfDay ∧ s.cachedHourOfDay < 7 then 0.75
      else 1.0
    max 2.5 (min 20.0 (4.0 * volatilityFactor * sessionFactor))

/-- `updateEMAAlignment(currentPrice)`: the 9/21/50 EMA stack and its
derived alignment features. -/
noncomputable def updateEMAAlignment (s : MonitorState) (currentPrice : ℝ) :
    MonitorState :=
  let alpha9 : ℝ := 2 / (9 + 1)
  let alpha21 : ℝ := 2 / (21 + 1)
  let alpha50 : ℝ := 2 / (50 + 1)
  let seed9 := if s.ema9 = 0 then currentPrice else s.ema9
  let seed21 := if s.ema21 = 0 then currentPrice else s.ema21
  let seed50 := if s.ema50 = 0 then currentPrice else s.ema50
  let e9 := alpha9 * currentPrice + (1 - alpha9) * seed9
  let e21 := alpha21 * currentPrice + (1 - alpha21) * seed21
  let e50 := alpha50 * currentPrice + (1 - alpha50) * seed50
  let over921 := decide (e21 < e9)
  let over2150 := decide (e50 < e21)
  { s with
    ema9 := e9
    ema21 := e21
    ema50 := e50
    emaAlignment9Over21 := over921
    emaAlignment21Over50 := over2150
    emaStackedBullish := over921 && over2150
    emaStackedBearish := !over921 && !over2150
    emaStackedNeutral := !((over921 && over2150) || (!over921 && !over2150))
    ema9_21_spread := (e9 - e21) / currentPrice
    ema21_50_spread := (e21 - e50) / currentPrice
    emaAlignmentStrength := (e9 - e21) / currentPrice + (e21 - e50) / currentPrice
    priceAboveEma9 := decide (e9 < currentPrice) }

/-- `updateMACD(currentPrice)` with periods (3, 10, 16): PPO line, signal
line (seeded by the first nonzero PPO) and histogram. -/
noncomputable def updateMACD (s : MonitorState) (currentPrice : ℝ) : MonitorState :=
  let alphaFast : ℝ := 2 / (3 + 1)
  let alphaSlow : ℝ := 2 / (10 + 1)
  let alphaSignal : ℝ := 2 / (16 + 1)
  let seedFast := if s.emaFast = 0 then currentPrice else s.emaFast
  let seedSlow := if s.emaSlow = 0 then currentPrice else s.emaSlow
  let eFast := alphaFast * currentPrice + (1 - alphaFast) * seedFast
  let eSlow := alphaSlow * currentPrice + (1 - alphaSlow) * seedSlow
  let ppo := if eSlow ≠ 0 then ((eFast - eSlow) / eSlow) * 100 else 0
  let seededSignal := if s.signalLine = 0 ∧ ppo ≠ 0 then ppo else s.signalLine
  let sig := alphaSignal * ppo + (1 - alphaSignal) * seededSignal
  { s with
    emaFast := eFast
    emaSlow := eSlow
    ppoLine := ppo
    signalLine := sig
    ppoHistogram := ppo - sig }

/-- The final RSI assignment of `updateRSI`: Wilder's formula, special
cases for zero averages, clamped to [0, 100]. -/
noncomputable def setRsiFromAverages (s : MonitorState) : MonitorState :=
  let v : ℝ :=
    if s.avgLoss = 0 ∧ s.avgGain = 0 then 50
    else if s.avgLoss = 0 then 100
    else 100 - 100 / (1 + s.avgGain / s.avgLoss)
  { s with rsiValue := max 0 (min 100 v) }

/-- `updateRSI(currentPrice)` with period 9: push the price, seed the
averages at 10 prices by simple means of the deltas, then Wilder
smoothing. -/
noncomputable def updateRSI (s : MonitorState) (currentPrice : ℝ) : MonitorState :=
  let hist := s.rsiPriceHistory.add currentPrice
  let s0 := { s with rsiPriceHistory := hist }
  if hist.size < 2 then s0
  else
    let prices := hist.toArray
    let priceChange := currentPrice - prices.getD (prices.length - 2) 0
    let gain := max 0 priceChange
    let loss := max 0 (-priceChange)
    if hist.size = 9 + 1 then
      let deltas := (prices.zip prices.tail).map (fun p => p.2 - p.1)
      let s1 := { s0 with
        avgGain := (deltas.map (fun d => max 0 d)).sum / 9
        avgLoss := (deltas.map (fun d => max 0 (-d))).sum / 9 }
      setRsiFromAverages s1
    else if 9 + 1 < hist.size then
      let s1 := { s0 with
        avgGain := ((9 - 1) * s0.avgGain + gain) / 9
        avgLoss := ((9 - 1) * s0.avgLoss + loss) / 9 }
      setRsiFromAverages s1
    else s0

/-- `calculateImbalanceVolatility()`: population standard deviation of
the last 10 imbalance history entries, 0 below 10. -/
noncomputable def calculateImbalanceVolatility (s : MonitorState) : ℝ :=
  if s.imbalanceHistory.size < 10 then 0
  else
    let vals := s.imbalanceHistory.toArray.drop (s.imbalanceHistory.size - 10)
    popStdDev vals

/-- `updateImbalanceFeatures(currentImbalance)`: push, velocity, MA5 and
MA20, and the windowed volatility. -/
noncomputable def updateImbalanceFeatures (s : MonitorState) (currentImbalance : ℝ) :
    MonitorState :=
  let hist := s.imbalanceHistory.add currentImbalance
  let s1 := { s with
    imbalanceHistory := hist
    imbalanceVelocity := currentImbalance - s.previousImbalance
    previousImbalance := currentImbalance }
  let arr := hist.toArray
  let s2 :=
    if 5 ≤ arr.length then
      { s1 with imbalanceMA5 := ((arr.drop (arr.length - 5)).sum) / 5 }
    else s1
  let s3 :=
    if 20 ≤ arr.length then
      { s2 with imbalanceMA20 := arr.sum / arr.length }
    else s2
  { s3 with imbalanceVolatility := calculateImbalanceVolatility s3 }

/-- `updateDepthSnapshot(data)`: top-5 bid/ask size sums and the derived
depth features, then the imbalance feature block. -/
noncomputable def updateDepthSnapshot (s : MonitorState)
    (bids asks : List (ℝ × ℝ)) : MonitorState :=
  if bids = [] ∨ asks = [] then s
  else
    let bidSum := ((bids.take 5).map (fun p => p.2)).sum
    let askSum := ((asks.take 5).map (fun p => p.2)).sum
    let imbalance := (bidSum - askSum) / (bidSum + askSum + eps8)
    let s1 := { s with
      depth5ObImbalance := imbalance
      depth5BidVolume := bidSum
      depth5AskVolume := askSum
      depth5TotalVolume := bidSum + askSum
      depth5VolumeRatio := bidSum / (askSum + eps8) }
    updateImbalanceFeatures s1 imbalance

/-- `applyBookTickerUpdate(data)` on the parsed bid and ask (finiteness
is inherent to the real-number model). -/
noncomputable def applyBookTickerUpdate (s : MonitorState) (bid ask : ℝ) :
    MonitorState :=
  let s1 := if 0 < bid then { s with bestBid := bid } else s
  let s2 := if 0 < ask then { s1 with bestAsk := ask } else s1
  if 0 < s2.bestBid ∧ 0 < s2.bestAsk then
    { s2 with bidAskMidpoint := (s2.bestBid + s2.bestAsk) / 2 }
  else s2

/-- `addAggTrade(tradeData)`: ring push, last price, effective spread
history and the signed trade imbalance history. -/
noncomputable def addAggTrade (s : MonitorState) (trade : AggTrade) : MonitorState :=
  let s1 := { s with aggTrades := s.aggTrades.add trade, lastPrice := trade.price }
  let s2 :=
    if 0 < s1.bidAskMidpoint then
      let effSpreadBps := |trade.price - s1.bidAskMidpoint| / s1.bidAskMidpoint * 10 ^ 4
      let hist := s1.effectiveSpreadHistory.add effSpreadBps
      { s1 with
        effectiveSpreadHistory := hist
        avgEffectiveSpread := hist.toArray.sum / hist.toArray.length }
    else s1
  let imb := if trade.isBuyerMaker then -trade.quantity else trade.quantity
  { s2 with tradeImbalanceHistory := s2.tradeImbalanceHistory.add imb }

/-- `applyTickerUpdate(ticker)` on the parsed 24 h fields. -/
noncomputable def applyTickerUpdate (s : MonitorState) (q P h l c : ℝ) : MonitorState :=
  { s with
    ticker24hrVolumeUsdt := q
    ticker24hrPriceChangePct := P
    ticker24hrHigh := h
    ticker24hrLow := l
    tickerLastPrice := c }

/-- `getHistoricalPrice(targetTimeMs)`: scan the price buckets newest to
oldest for the first bucket at or before the target time. -/
def getHistoricalPrice (s : MonitorState) (targetTimeMs : ℤ) : Option ℝ :=
  ((s.priceBuckets.toArray.reverse).find? (fun b => decide (b.time ≤ targetTimeMs))).map
    (fun b => b.price)

/-- The volatility step of `performPeriodicCalculations`. -/
noncomputable def volatilitySection (s : MonitorState) (now : ℤ) : MonitorState :=
  if 0 < s.lastPrice then updateVolatility s s.lastPrice now else s

/-- The trades of the last second: scan the ring newest to oldest and
stop at the first trade older than `now - 1000`. -/
def recentTrades (s : MonitorState) (now : ℤ) : List AggTrade :=
  (s.aggTrades.toArray.reverse).takeWhile (fun t => decide (now - 1000 ≤ t.eventTime))

/-- The 1-second aggregation step: quote volume, trade count and the
taker buy/sell split over the last second of trades. -/
noncomputable def tradeAggSection (s : MonitorState) (now : ℤ) : MonitorState :=
  let recent := recentTrades s now
  { s with
    current1sVolumeSum := (recent.map (fun t => t.price * t.quantity)).sum
    current1sTradeCount := recent.length
    current1sTakerBuyVolume :=
      ((recent.filter (fun t => !t.isBuyerMaker)).map (fun t => t.price * t.quantity)).sum
    current1sTakerSellVolume :=
      ((recent.filter (fun t => t.isBuyerMaker)).map (fun t => t.price * t.quantity)).sum }

/-- The volume EWMA / acceleration step: lazy 5 m seed, the three EWMAs
and `volumeAccel = ewmaFast - prevEwma1s`. -/
noncomputable def ewmaSection (s : MonitorState) : MonitorState :=
  let vol1s := s.current1sVolumeSum
  let seeded5m :=
    if s.ewma5mVolumeBaseline = 0 ∧ 0 < vol1s then vol1s else s.ewma5mVolumeBaseline
  let fastV :=
    params.EWMA_ALPHA_VOL_FAST * vol1s + (1 - params.EWMA_ALPHA_VOL_FAST) * s.ewma1sVolumeFast
  let slowV :=
    params.EWMA_ALPHA_VOL_SLOW * vol1s + (1 - params.EWMA_ALPHA_VOL_SLOW) * seeded5m
  let medV :=
    params.EWMA_ALPHA_VOL_MED * vol1s + (1 - params.EWMA_ALPHA_VOL_MED) * s.ewma1mVolumeBaseline
  { s with
    ewma1sVolumeFast := fastV
    ewma5mVolumeBaseline := slowV
    ewma1mVolumeBaseline := medV
    volumeAccel := fastV - s.prevEwma1s
    prevEwma1s := fastV }

/-- The 100 ms price bucket step: open a bucket at the floor of `now`, or
overwrite the price of the open bucket. -/
noncomputable def priceBucketSection (s : MonitorState) (now : ℤ) : MonitorState :=
  if 0 < s.lastPrice then
    let bucketFloor :=
      (Int.fdiv now params.PRICE_BUCKET_DURATION_MS) * params.PRICE_BUCKET_DURATION_MS
    if s.lastPriceBucketTime = 0 ∨ s.lastPriceBucketTime < bucketFloor then
      { s with
        priceBuckets := s.priceBuckets.add ⟨bucketFloor, s.lastPrice⟩
        lastPriceBucketTime := bucketFloor }
    else
      match s.priceBuckets.getNewest with
      | some last =>
        if last.time = bucketFloor then
          { s with priceBuckets := s.priceBuckets.setNewest ⟨last.time, s.lastPrice⟩ }
        else s
      | none => s
  else s

/-- The EMA / RSI / MACD step, each fed `lastPrice`. -/
noncomputable def indicatorSection (s : MonitorState) : MonitorState :=
  let s1 := updateEMAAlignment s s.lastPrice
  let s2 := updateRSI s1 s1.lastPrice
  updateMACD s2 s2.lastPrice

/-- The taker flow step (FIX-2 of the source): the raw buy/sell ratio is
`buy/sell` when `sell > 0`, else 100 when `buy > 0`, else 0; it is
clipped to 100, smoothed by an EWMA with alpha 0.20, and exported
together with imbalance and magnitude. -/
noncomputable def takerFlowSection (s : MonitorState) : MonitorState :=
  let buyUSDT := s.current1sTakerBuyVolume
  let sellUSDT := s.current1sTakerSellVolume
  let rawRatio :=
    if 0 < sellUSDT then buyUSDT / sellUSDT
    else if 0 < buyUSDT then maxTakerRatio else 0
  let clippedRatio := min rawRatio maxTakerRatio
  { s with
    takerRatioEwma := alphaTakerRatio * clippedRatio + (1 - alphaTakerRatio) * s.takerRatioEwma
    takerFlowImbalance := (buyUSDT - sellUSDT) / (buyUSDT + sellUSDT + eps8)
    takerFlowMagnitude := buyUSDT + sellUSDT
    takerFlowRatio := clippedRatio }

/-- The volume acceleration sigma step: push `volumeAccel` to the
60-slot history; at 20 entries or more set the population stddev. -/
noncomputable def accelSigmaSection (s : MonitorState) : MonitorState :=
  let ah := s.accelHistory.add s.volumeAccel
  let s1 := { s with accelHistory := ah }
  if 20 ≤ ah.size then { s1 with accelSigma := popStdDev ah.toArray } else s1

/-- The price slope step (FIX-1 of the source): look up the bucket price
2 s back, falling back to `lastPrice` on a miss; fold the
percent-per-second slope into `priceSlope` with alpha 0.4; push to the
40-slot history; at 20 entries or more set the population stddev. -/
noncomputable def priceSlopeSection (s : MonitorState) (now : ℤ) : MonitorState :=
  let s1 :=
    if 0 < s.lastPrice then
      let priceT := (getHistoricalPrice s (now - PRICE_SLOPE_LOOKBACK_MS)).getD s.lastPrice
      if 0 < priceT then
        let pctChange := (s.lastPrice - priceT) / priceT
        let slopePerS := pctChange / ((PRICE_SLOPE_LOOKBACK_MS : ℝ) / 1000)
        { s with
          priceSlope :=
            params.PRICE_SLOPE_ALPHA * slopePerS + (1 - params.PRICE_SLOPE_ALPHA) * s.priceSlope }
      else s
    else s
  let ph := s1.priceSlopeHist.add s1.priceSlope
  let s2 := { s1 with priceSlopeHist := ph }
  if 20 ≤ ph.size then { s2 with priceSlopeSigma := popStdDev ph.toArray } else s2

/-- `performPeriodicCalculations()` at tick time `now`: the sections in
source order. -/
noncomputable def performPeriodicCalculations (s : MonitorState) (now : ℤ) : MonitorState :=
  priceSlopeSection
    (accelSigmaSection
      (takerFlowSection
        (indicatorSection
          (priceBucketSection
            (ewmaSection (tradeAggSection (volatilitySection s now) now)) now)))) now

/-- `getAbsoluteVolumeFloor()`. -/
noncomputable def getAbsoluteVolumeFloor (s : MonitorState) : ℝ :=
  max (tierFloorMap s.marketCapTier) (s.ticker24hrVolumeUsdt / 86400 * 0.25)

/-- `hasSufficientLiquidity()`: positive midpoint, enough notional depth
on the weaker side, and enough 1 s volume. -/
def hasSufficientLiquidity (s : MonitorState) : Prop :=
  ¬ (s.bidAskMidpoint ≤ 0)
  ∧ ¬ (min (s.depth5BidVolume * s.bidAskMidpoint) (s.depth5AskVolume * s.bidAskMidpoint)
        < EXPECTED_TRADE_SIZE_USD * MIN_EXECUTION_MULTIPLIER)
  ∧ ¬ (s.current1sVolumeSum < EXPECTED_TRADE_SIZE_USD)

noncomputable instance (s : MonitorState) : Decidable (hasSufficientLiquidity s) := by
  unfold hasSufficientLiquidity
  infer_instance

end SymbolMonitor

/-- `symbol.replace(/[^A-Za-z0-9]/g, "").toUpperCase()`. -/
def normalizeSymbol (s : String) : String :=
  String.map Char.toUpper (String.mk (s.data.filter (fun c => c.isAlphanum)))

/-- The signal vector persisted on gate success, one field per field of
the inserted document (`createdAt` carried as its timestamp). -/
structure SignalVector where
  exchange : String
  createdAtMs : ℤ
  symbol : String
  signalTimestampMs : ℤ
  triggerPrice : ℝ
  priceChangePct : ℝ
  priceSlope : ℝ
  slopeZ : ℝ
  priceZScore : ℝ
  volumeRatioFast1m : ℝ
  volumeRatio1m5m : ℝ
  volumeAccelZ : ℝ
  current1sVolumeUsdt : ℝ
  volumePerDollar : ℝ
  dynVolumeThresh : ℝ
  volatility30s : ℝ
  volatility5m : ℝ
  volatilityRatio : ℝ
  spreadPct : ℝ
  spreadBps : ℝ
  normalizedSpread : ℝ
  effectiveSpreadBps : ℝ
  depth5ObImbalance : ℝ
  depth5BidVolume : ℝ
  depth5AskVolume : ℝ
  depth5TotalVolume : ℝ
  depth5VolumeRatio : ℝ
  imbalanceMA5 : ℝ
  imbalanceMA20 : ℝ
  imbalanceVelocity : ℝ
  imbalanceVolatility : ℝ
  takerRatioSmoothed : ℝ
  takerBuyVolumeAbs : ℝ
  takerFlowImbalance : ℝ
  takerFlowMagnitude : ℝ
  takerFlowRatio : ℝ
  ppoHistogram : ℝ
  ppoLine : ℝ
  signalLine : ℝ
  rsi9 : ℝ
  ema9Over21 : Bool
  ema21Over50 : Bool
  emaAlignmentStrength : ℝ
  emaStackedBullish : Bool
  emaStackedBearish : Bool
  emaStackedNeutral : Bool
  priceAboveEma9 : Bool
  ticker24hrVolumeUsdt : ℝ
  ticker24hrPriceChangePct : ℝ
  ticker24hrHigh : ℝ
  ticker24hrLow : ℝ
  hourOfDay : ℤ
  dayOfWeek : ℤ
  isWeekend : Bool
  realisedVolFast : ℝ
  realisedVolMedium : ℝ
  explosiveRatio : ℝ
  volatilityExpansionRatio : ℝ

/-- A delayed follow-up task as handed to `Queue.add(kind, payload,
options)`: the queue it goes to, the job kind, the payload fields and
the options the source sets. -/
structure Task where
  queue : String
  kind : String
  id : String
  symbol : String
  timestamp : Option ℤ
  tOffset : Option ℤ
  delay : ℤ
  removeOnComplete : Bool
  removeOnFail : Bool
  deriving DecidableEq

/-- The four enqueues of `checkSignal` after the signal insert: one
price-trajectory task delayed 31 minutes, then one orderbook task per
`tOffset` in `[3, 10, 30]` delayed `tOffset` seconds. -/
def mkTasks (insertedId symbol : String) (now : ℤ) : List Task :=
  ⟨EXCHANGE ++ "_price", EXCHANGE ++ "_price", insertedId, symbol,
    some now, none, 31 * 60 * 1000, true, true⟩ ::
  ([3, 10, 30].map (fun tOffset =>
    ⟨EXCHANGE ++ "_order", EXCHANGE ++ "_orderbook", insertedId, symbol,
      none, some tOffset, tOffset * 1000, true, true⟩))

/-- The result of one `checkSignal` call: the returned vector (none on
any failed guard), the monitor state after the call, and the tasks
enqueued. -/
structure CheckResult where
  vector : Option SignalVector
  state : MonitorState
  tasks : List Task

namespace SymbolMonitor

/-- The vector literal of `checkSignal`, built from the monitor state
and the gate's local variables. -/
noncomputable def buildVector (s : MonitorState) (now : ℤ)
    (spreadPct spreadBps normalizedSpread ratioFast1m ratio1m5m accelZ dynThresh
      priceChangePct slopeZ priceZScore : ℝ) : SignalVector where
  exchange := EXCHANGE
  createdAtMs := now
  symbol := normalizeSymbol s.symbol
  signalTimestampMs := now
  triggerPrice := s.lastPrice
  priceChangePct := priceChangePct
  priceSlope := s.priceSlope
  slopeZ := slopeZ
  priceZScore := priceZScore
  volumeRatioFast1m := ratioFast1m
  volumeRatio1m5m := ratio1m5m
  volumeAccelZ := accelZ
  current1sVolumeUsdt := s.current1sVolumeSum
  volumePerDollar := s.current1sVolumeSum / (s.ticker24hrVolumeUsdt + 1)
  dynVolumeThresh := dynThresh
  volatility30s := s.volatility30s
  volatility5m := s.volatility5m
  volatilityRatio := s.volatilityRatio
  spreadPct := spreadPct
  spreadBps := spreadBps
  normalizedSpread := normalizedSpread
  effectiveSpreadBps := s.avgEffectiveSpread
  depth5ObImbalance := s.depth5ObImbalance
  depth5BidVolume := s.depth5BidVolume
  depth5AskVolume := s.depth5AskVolume
  depth5TotalVolume := s.depth5TotalVolume
  depth5VolumeRatio := s.depth5VolumeRatio
  imbalanceMA5 := s.imbalanceMA5
  imbalanceMA20 := s.imbalanceMA20
  imbalanceVelocity := s.imbalanceVelocity
  imbalanceVolatility := s.imbalanceVolatility
  takerRatioSmoothed := s.takerRatioEwma
  takerBuyVolumeAbs := s.current1sTakerBuyVolume
  takerFlowImbalance := s.takerFlowImbalance
  takerFlowMagnitude := s.takerFlowMagnitude
  takerFlowRatio := s.takerFlowRatio
  ppoHistogram := s.ppoHistogram
  ppoLine := s.ppoLine
  signalLine := s.signalLine
  rsi9 := s.rsiValue
  ema9Over21 := s.emaAlignment9Over21
  ema21Over50 := s.emaAlignment21Over50
  emaAlignmentStrength := s.emaAlignmentStrength
  emaStackedBullish := s.emaStackedBullish
  emaStackedBearish := s.emaStackedBearish
  emaStackedNeutral := s.emaStackedNeutral
  priceAboveEma9 := s.priceAboveEma9
  ticker24hrVolumeUsdt := s.ticker24hrVolumeUsdt
  ticker24hrPriceChangePct := s.ticker24hrPriceChangePct
  ticker24hrHigh := s.ticker24hrHigh
  ticker24hrLow := s.ticker24hrLow
  hourOfDay := s.cachedHourOfDay
  dayOfWeek := s.cachedDayOfWeek
  isWeekend := s.cachedIsWeekend
  realisedVolFast := s.volatility30s
  realisedVolMedium := s.volatility5m
  explosiveRatio := s.volatilityRatio
  volatilityExpansionRatio := s.volatilityRatio

/-- The `spreadPct` local of `checkSignal`. -/
noncomputable def spreadPctOf (s : MonitorState) : ℝ :=
  (s.bestAsk - s.bestBid) / s.bestAsk

/-- The `spreadBps` local of `checkSignal`. -/
noncomputable def spreadBpsOf (s : MonitorState) : ℝ :=
  spreadPctOf s * 10 ^ 4

/-- The `instantVol` local of `checkSignal`: the annualised 30 s
volatility scaled back to per-second units. -/
noncomputable def instantVolOf (s : MonitorState) : ℝ :=
  s.volatility30s / Real.sqrt (365 * 24 * 60 * 60)

/-- The `normalizedSpread` local of `checkSignal`. -/
noncomputable def normalizedSpreadOf (s : MonitorState) : ℝ :=
  spreadPctOf s / (instantVolOf s + 1 / 10 ^ 4)

/-- The `ratioFast1m` local of `checkSignal`. -/
noncomputable def ratioFast1mOf (s : MonitorState) : ℝ :=
  if 0 < s.ewma1mVolumeBaseline then s.ewma1sVolumeFast / s.ewma1mVolumeBaseline else 0

/-- The `ratio1m5m` local of `checkSignal`. -/
noncomputable def ratio1m5mOf (s : MonitorState) : ℝ :=
  if 0 < s.ewma5mVolumeBaseline then s.ewma1mVolumeBaseline / s.ewma5mVolumeBaseline else 0

/-- The `accelZ` local of `checkSignal`. -/
noncomputable def accelZOf (s : MonitorState) : ℝ :=
  if 0 < s.accelSigma then s.volumeAccel / s.accelSigma else 0

/-- The `isVolumeSpike` condition of `checkSignal`. -/
def isVolumeSpike (s : MonitorState) : Prop :=
  getDynamicVolumeThreshold s ≤ ratioFast1mOf s
  ∧ params.MIN_VOLUME_SPIKE_RATIO_1M5M ≤ ratio1m5mOf s
  ∧ params.VOLUME_ACCEL_ZSCORE ≤ accelZOf s
  ∧ getAbsoluteVolumeFloor s ≤ s.current1sVolumeSum
  ∧ params.MIN_TRADES_IN_1S ≤ s.current1sTradeCount

noncomputable instance (s : MonitorState) : Decidable (isVolumeSpike s) := by
  unfold isVolumeSpike
  infer_instance

/-- The `priceChangePct` local of `checkSignal`. -/
noncomputable def priceChangePctOf (s : MonitorState) (priceLookback : ℝ) : ℝ :=
  (s.lastPrice - priceLookback) / priceLookback

/-- The `slopeZ` local of `checkSignal`. -/
noncomputable def slopeZOf (s : MonitorState) : ℝ :=
  if 0 < s.priceSlopeSigma then s.priceSlope / s.priceSlopeSigma else 0

/-- The `priceZScore` local of `checkSignal`. -/
noncomputable def priceZScoreOf (s : MonitorState) (priceLookback : ℝ) : ℝ :=
  if 0 < instantVolOf s then priceChangePctOf s priceLookback / instantVolOf s else 0

/-- The price-momentum tail of `checkSignal`, taking the result of the
`getHistoricalPrice` lookup 2.5 s back: upward impulse, slope z-score
and price z-score guards, then the signal construction. -/
noncomputable def checkSignalMomentum (s : MonitorState) (now : ℤ) (insertedId : String) :
    Option ℝ → CheckResult
  | none => ⟨none, s, []⟩
  | some priceLookback =>
    if s.lastPrice ≤ priceLookback then ⟨none, s, []⟩
    else if slopeZOf s < params.PRICE_SLOPE_ZSCORE then ⟨none, s, []⟩
    else if priceZScoreOf s priceLookback < 1.5 then ⟨none, s, []⟩
    else
      ⟨some (buildVector s now (spreadPctOf s) (spreadBpsOf s) (normalizedSpreadOf s)
          (ratioFast1mOf s) (ratio1m5mOf s) (accelZOf s) (getDynamicVolumeThreshold s)
          (priceChangePctOf s priceLookback) (slopeZOf s)
          (priceZScoreOf s priceLookback)),
        { s with lastSignalTriggerTime := now },
        mkTasks insertedId s.symbol now⟩

/-- The body of `checkSignal()` after the `updateTimeCache(now)` call,
on the refreshed state `s`.  Guards in source order; `Number.isFinite`
on `bestBid`/`bestAsk` is identically true in the real-number model. -/
noncomputable def checkSignalCore (s : MonitorState) (now : ℤ) (insertedId : String) :
    CheckResult :=
  if s.lastPrice = 0 ∨ s.ewma5mVolumeBaseline = 0 then ⟨none, s, []⟩
  else if s.returnHistory.size < 30 ∨ s.volatility30s = 0 then ⟨none, s, []⟩
  else if s.ticker24hrVolumeUsdt < MIN_24H_VOLUME_USD then ⟨none, s, []⟩
  else if ¬ hasSufficientLiquidity s then ⟨none, s, []⟩
  else if now - s.lastSignalTriggerTime < params.SIGNAL_COOLDOWN_MS then ⟨none, s, []⟩
  else if maxVolByTier s.marketCapTier < s.volatility5m ∨ s.volatility5m < 0.05 then
    ⟨none, s, []⟩
  else if s.bestBid ≤ 0 ∨ s.bestAsk ≤ s.bestBid then ⟨none, s, []⟩
  else if params.MAX_BID_ASK_SPREAD_PCT < spreadPctOf s then ⟨none, s, []⟩
  else if 3.0 < normalizedSpreadOf s then ⟨none, s, []⟩
  else if ¬ isVolumeSpike s then ⟨none, s, []⟩
  else checkSignalMomentum s now insertedId
    (getHistoricalPrice s (now - params.PRICE_LOOKBACK_WINDOW_MS))

/-- `checkSignal()` at tick time `now`: refresh the time cache, then run
the gate. -/
noncomputable def checkSignal (s0 : MonitorState) (now : ℤ) (insertedId : String) :
    CheckResult :=
  checkSignalCore (updateTimeCache s0 now) now insertedId

end SymbolMonitor

/-- The sequence of awaited enqueues: tasks are enqueued in order until
one fails (`okFlag = false`), whose exception aborts the rest. -/
def enqueueUntil (okFlag : Task → Bool) : List Task → List Task × Bool
  | [] => ([], false)
  | t :: ts =>
    if okFlag t then
      let r := enqueueUntil okFlag ts
      (t :: r.1, r.2)
    else ([], true)

/-- `checkSignal` together with its fallible I/O: the cooldown stamp on
line 563 of the source precedes the `await mongo.signals.insertOne` and
the queue enqueues, so the returned monitor state is the same whether or
not the persist (`persistOk`) or any enqueue (`enqOk`) fails; a failure
only truncates the effects and propagates as an exception. -/
noncomputable def checkSignalWithEffects (s0 : MonitorState) (now : ℤ)
    (insertedId : String) (persistOk : Bool) (enqOk : Task → Bool) :
    Except Unit (Option SignalVector) × MonitorState × List Task :=
  let r := SymbolMonitor.checkSignal s0 now insertedId
  match r.vector with
  | none => (Except.ok none, r.state, [])
  | some v =>
    if persistOk then
      let e := enqueueUntil enqOk r.tasks
      if e.2 then (Except.error (), r.state, e.1)
      else (Except.ok (some v), r.state, e.1)
    else (Except.error (), r.state, [])

/-- The taker-flow ratio as the spec states it: `buy / (sell + eps)`
clipped to 100. -/
noncomputable def takerFlowRatioSpec (buy sell : ℝ) : ℝ :=
  min (buy / (sell + eps8)) 100

/-- A monitor whose bucket history cannot answer a 2 s lookback: a fresh
monitor with a positive last price and a nonzero smoothed slope. -/
noncomputable def sSlopeMiss : MonitorState :=
  { SymbolMonitor.init "X" Tier.mid with lastPrice := 1, priceSlope := 1 }

/-- A monitor whose last second of trades is a single taker-buy of
quote notional `10^-7` (price `10^-7`, quantity 1). -/
noncomputable def sTinyBuy : MonitorState :=
  { SymbolMonitor.init "X" Tier.mid with
    aggTrades := ⟨250, [⟨1 / 10 ^ 7, 1, 1000000, false⟩]⟩ }

/-- A canonical event or tick as routed by the dispatch loop of app.js
to one monitor: the four stream variants plus the 250 ms tick (which
runs `performPeriodicCalculations` then `checkSignal`). -/
inductive StreamEvent where
  | aggTrade (d : AggTrade)
  | ticker (q P h l c : ℝ)
  | bookTicker (bid ask : ℝ)
  | depth (bids asks : List (ℝ × ℝ))
  | tick (now : ℤ) (insertedId : String)

/-- One dispatch step on a monitor: the handler for the event, or the
periodic computation plus gate on a tick; the emitted signal, if any, is
returned with its tick time. -/
noncomputable def stepMonitor (s : MonitorState) :
    StreamEvent → MonitorState × Option (ℤ × SignalVector)
  | StreamEvent.aggTrade d => (SymbolMonitor.addAggTrade s d, none)
  | StreamEvent.ticker q P h l c => (SymbolMonitor.applyTickerUpdate s q P h l c, none)
  | StreamEvent.bookTicker bid ask => (SymbolMonitor.applyBookTickerUpdate s bid ask, none)
  | StreamEvent.depth bids asks => (SymbolMonitor.updateDepthSnapshot s bids asks, none)
  | StreamEvent.tick now insertedId =>
    let s1 := SymbolMonitor.performPeriodicCalculations s now
    let r := SymbolMonitor.checkSignal s1 now insertedId
    (r.state, r.vector.map (fun v => (now, v)))

/-- Run a trace of events through one monitor, collecting the emitted
signals with their tick times. -/
noncomputable def runMonitor (s : MonitorState) :
    List StreamEvent → MonitorState × List (ℤ × SignalVector)
  | [] => (s, [])
  | e :: es =>
    let r1 := stepMonitor s e
    let r2 := runMonitor r1.1 es
    (r2.1, r1.2.toList ++ r2.2)

end SignalGate

/- ==================================================================
   Theorems
   ================================================================== -/

namespace SignalGate

/-- Running `addAll` keeps exactly the last `capacity` elements of the
stream: the buffer is the concatenation of the old contents and the new
elements with the overflow dropped from the front. -/
theorem CircularBuffer.addAll_buffer {α : Type} (cap : Nat) (hcap : 0 < cap) :
    ∀ (xs L : List α), L.length ≤ cap →
      (CircularBuffer.addAll ⟨cap, L⟩ xs).buffer
        = (L ++ xs).drop (L.length + xs.length - cap) := by
  intro xs
  induction xs with
  | nil =>
    intro L hL
    simp [CircularBuffer.addAll, Nat.sub_eq_zero_of_le hL]
  | cons x xs ih =>
    intro L hL
    have hstep : CircularBuffer.addAll (⟨cap, L⟩ : CircularBuffer α) (x :: xs)
        = CircularBuffer.addAll (CircularBuffer.add ⟨cap, L⟩ x) xs := rfl
    rw [hstep]
    by_cases h : L.length = cap
    · obtain ⟨y, t, rfl⟩ : ∃ y t, L = y :: t := by
        cases L with
        | nil => simp at h; omega
        | cons y t => exact ⟨y, t, rfl⟩
      have hadd : CircularBuffer.add (⟨cap, y :: t⟩ : CircularBuffer α) x
          = ⟨cap, t ++ [x]⟩ := by
        simp [CircularBuffer.add, h]
      rw [hadd]
      have hlen : (t ++ [x]).length ≤ cap := by
        simp at h ⊢
        omega
      have := ih (t ++ [x]) hlen
      rw [this]
      simp at h ⊢
      have h1 : t.length + 1 + xs.length - cap = xs.length := by omega
      rw [h1]
      have h3 : t.length + 1 + (xs.length + 1) - cap = xs.length + 1 := by omega
      rw [h3]
      simp [List.drop_succ_cons]
    · have hlt : L.length < cap := lt_of_le_of_ne hL h
      have hadd : CircularBuffer.add (⟨cap, L⟩ : CircularBuffer α) x
          = ⟨cap, L ++ [x]⟩ := by
        simp [CircularBuffer.add, h]
      rw [hadd]
      have hlen : (L ++ [x]).length ≤ cap := by
        simp
        omega
      have := ih (L ++ [x]) hlen
      rw [this]
      have h2 : (L ++ [x]) ++ xs = L ++ x :: xs := by simp
      have h3 : (L ++ [x]).length + xs.length = L.length + (x :: xs).length := by
        simp
        omega
      rw [h2, h3]

/-- C2: for every ring buffer instance (capacity at least 1) and every
sequence of `add` operations from the empty buffer, `0 ≤ size ≤ capacity`
holds, `toArray()` returns exactly `size` elements which are the inserted
elements in oldest-to-newest order with the overflow dropped from the
front, and an `add` on a full buffer drops exactly the oldest element. -/
theorem C2_ring_buffer {α : Type} (capacity : Nat) (hcap : 0 < capacity)
    (xs : List α) (c : CircularBuffer α) (x : α) :
    ((CircularBuffer.mkEmpty α capacity).addAll xs).size ≤ capacity
    ∧ ((CircularBuffer.mkEmpty α capacity).addAll xs).toArray
        = xs.drop (xs.length - capacity)
    ∧ ((CircularBuffer.mkEmpty α capacity).addAll xs).toArray.length
        = ((CircularBuffer.mkEmpty α capacity).addAll xs).size
    ∧ (c.size = c.capacity → (c.add x).toArray = c.toArray.tail ++ [x]) := by
  have hbuf := CircularBuffer.addAll_buffer capacity hcap xs [] (by simp)
  simp only [List.nil_append, List.length_nil, Nat.zero_add] at hbuf
  refine ⟨?_, ?_, rfl, ?_⟩
  · show ((CircularBuffer.mkEmpty α capacity).addAll xs).buffer.length ≤ capacity
    rw [show (CircularBuffer.mkEmpty α capacity) = (⟨capacity, []⟩ : CircularBuffer α) from rfl,
      hbuf]
    rw [List.length_drop]
    omega
  · exact hbuf
  · intro hfull
    simp [CircularBuffer.add, CircularBuffer.size, CircularBuffer.toArray] at hfull ⊢
    simp [hfull]

/-- Witness for C2 at a concrete input: a capacity-2 buffer fed 3 elements
keeps the last two, and an `add` on a full buffer drops the oldest. -/
theorem C2_ring_buffer_witness :
    ((CircularBuffer.mkEmpty Nat 2).addAll [5, 6, 7]).toArray = [6, 7]
    ∧ (CircularBuffer.add (⟨2, [8, 9]⟩ : CircularBuffer Nat) 10).toArray = [9, 10] := by
  have h := C2_ring_buffer 2 (by decide) [5, 6, 7] (⟨2, [8, 9]⟩ : CircularBuffer Nat) 10
  exact ⟨by simpa using h.2.1, by simpa using h.2.2.2 rfl⟩

/-- Counterexample to C7 as stated: with exactly one log return (two
bars, both closes 1) the worker returns `some 0`, not `null`, although
fewer than 2 returns exist. -/
theorem C7_trajectory_worker_counterexample :
    (logReturns [⟨0, 1, 1, 1, 1, 1⟩, ⟨1000, 1, 1, 1, 1, 1⟩]).length = 1
    ∧ realisedSigma [⟨0, 1, 1, 1, 1, 1⟩, ⟨1000, 1, 1, 1, 1, 1⟩] = some 0 := by
  have hlog : logReturns [⟨0, 1, 1, 1, 1, 1⟩, ⟨1000, 1, 1, 1, 1, 1⟩] = [0] := by
    simp [logReturns, Real.log_one]
  refine ⟨by rw [hlog]; rfl, ?_⟩
  rw [realisedSigma]
  simp only [hlog]
  norm_num [popStdDev, popVariance, listMean]

/-- C7 (amended): `realisedSigma` is `null` exactly when fewer than two
bars were read or no consecutive pair has a positive earlier close (so
in particular it is `some 0`, not `null`, on a single return); otherwise
it is the population standard deviation of the log returns of
consecutive closes; each grid row takes the first bar at or after
`startMs + sec*1000`, else the last available bar, with price `null`
and volume 0 when no bars exist at all. -/
theorem C7_trajectory_worker (bars : List SecBar) (startMs : ℤ) (sec : ℕ) :
    (bars.length < 2 → realisedSigma bars = none)
    ∧ (logReturns bars = [] → realisedSigma bars = none)
    ∧ (2 ≤ bars.length → logReturns bars ≠ [] →
        realisedSigma bars = some (popStdDev (logReturns bars)))
    ∧ (bars = [] → priceRow bars startMs sec = ⟨sec, none, 0⟩)
    ∧ (∀ b, bars.find? (fun bar => decide (startMs + (sec : ℤ) * 1000 ≤ bar.t)) = some b →
        priceRow bars startMs sec = ⟨sec, some b.close, b.volume⟩)
    ∧ (bars.find? (fun bar => decide (startMs + (sec : ℤ) * 1000 ≤ bar.t)) = none →
        ∀ b, bars.getLast? = some b →
        priceRow bars startMs sec = ⟨sec, some b.close, b.volume⟩)
    ∧ processJobRows bars startMs = offsets.map (priceRow bars startMs) := by
  refine ⟨?_, ?_, ?_, ?_, ?_, ?_, rfl⟩
  · intro h
    simp [realisedSigma, h]
  · intro h
    by_cases h2 : bars.length < 2
    · simp [realisedSigma, h2]
    · simp [realisedSigma, h2, h]
  · intro h1 h2
    simp [realisedSigma, show ¬ bars.length < 2 by omega, h2]
  · intro h
    subst h
    simp [priceRow]
  · intro b hb
    simp [priceRow, hb]
  · intro hn b hb
    simp [priceRow, hn, hb]

/-- Witness for C7 at concrete inputs: no bars yields `null` sigma, and
a grid row picks the first bar at or after the target time. -/
theorem C7_trajectory_worker_witness :
    realisedSigma ([] : List SecBar) = none
    ∧ priceRow [⟨0, 1, 1, 1, 1, 1⟩, ⟨1000, 2, 2, 2, 2, 3⟩] 0 1
        = ⟨1, some 2, 3⟩ := by
  have h1 := C7_trajectory_worker ([] : List SecBar) 0 1
  have h2 := C7_trajectory_worker [⟨0, 1, 1, 1, 1, 1⟩, ⟨1000, 2, 2, 2, 2, 3⟩] 0 1
  refine ⟨h1.1 (by decide), ?_⟩
  exact h2.2.2.2.2.1 ⟨1000, 2, 2, 2, 2, 3⟩ (by decide)

theorem splitOnChar_ne_nil (sep : Char) (cs : List Char) : splitOnChar sep cs ≠ [] := by
  induction cs with
  | nil => simp [splitOnChar]
  | cons c rest ih =>
    simp only [splitOnChar]
    cases h : splitOnChar sep rest with
    | nil => simp
    | cons hd tl => split_ifs <;> simp

/-- Splitting a separator-free string yields that one piece. -/
theorem splitOnChar_of_not_mem (sep : Char) (xs : List Char) (h : sep ∉ xs) :
    splitOnChar sep xs = [xs] := by
  induction xs with
  | nil => rfl
  | cons c rest ih =>
    have hc : ¬ (c = sep) := fun hh => h (hh ▸ List.mem_cons_self c rest)
    have hr : sep ∉ rest := fun hm => h (List.mem_cons_of_mem _ hm)
    simp [splitOnChar, ih hr, hc]

/-- Splitting peels a separator-free prefix off at the separator. -/
theorem splitOnChar_append (sep : Char) (xs rest : List Char) (h : sep ∉ xs) :
    splitOnChar sep (xs ++ sep :: rest) = xs :: splitOnChar sep rest := by
  induction xs with
  | nil =>
    simp only [List.nil_append, splitOnChar]
    cases hs : splitOnChar sep rest with
    | nil => exact absurd hs (splitOnChar_ne_nil sep rest)
    | cons hd tl => simp
  | cons c xs2 ih =>
    have hc : ¬ (c = sep) := fun hh => h (hh ▸ List.mem_cons_self c xs2)
    have hx : sep ∉ xs2 := fun hm => h (List.mem_cons_of_mem _ hm)
    simp only [List.cons_append, splitOnChar, List.append_eq]
    rw [ih hx]
    simp [hc]

theorem charToDigit_digitToChar (d : ℕ) (h : d < 10) :
    charToDigit (digitToChar d) = d := by
  interval_cases d <;> decide

theorem digitToChar_ne_comma (d : ℕ) (h : d < 10) : digitToChar d ≠ ',' := by
  interval_cases d <;> decide

theorem digitToChar_ne_dot (d : ℕ) (h : d < 10) : digitToChar d ≠ '.' := by
  interval_cases d <;> decide

/-- Every character of a rendered natural is a decimal digit. -/
theorem mem_natToChars (n : ℕ) (c : Char) (hc : c ∈ natToChars n) :
    ∃ d, d < 10 ∧ c = digitToChar d := by
  unfold natToChars at hc
  split_ifs at hc with h
  · simp only [List.mem_singleton] at hc
    exact ⟨0, by norm_num, by rw [hc]; rfl⟩
  · simp only [List.mem_map, List.mem_reverse] at hc
    obtain ⟨d, hd, rfl⟩ := hc
    exact ⟨d, Nat.digits_lt_base (by norm_num) hd, rfl⟩

/-- Every character of the fractional digits is a decimal digit. -/
theorem mem_fracChars (fr e : ℕ) (c : Char) (hc : c ∈ fracChars fr e) :
    ∃ d, d < 10 ∧ c = digitToChar d := by
  unfold fracChars at hc
  rcases List.mem_append.1 hc with h | h
  · exact ⟨0, by norm_num, by rw [List.eq_of_mem_replicate h]; rfl⟩
  · simp only [List.mem_map, List.mem_reverse] at h
    obtain ⟨d, hd, rfl⟩ := h
    exact ⟨d, Nat.digits_lt_base (by norm_num) hd, rfl⟩

theorem dot_not_mem_natToChars (n : ℕ) : ('.' : Char) ∉ natToChars n := by
  intro hc
  obtain ⟨d, hd, he⟩ := mem_natToChars n _ hc
  exact digitToChar_ne_dot d hd he.symm

theorem dot_not_mem_fracChars (fr e : ℕ) : ('.' : Char) ∉ fracChars fr e := by
  intro hc
  obtain ⟨d, hd, he⟩ := mem_fracChars fr e _ hc
  exact digitToChar_ne_dot d hd he.symm

/-- A rendered number never contains a comma. -/
theorem comma_not_mem_ratToChars (q : ℚ) : (',' : Char) ∉ ratToChars q := by
  intro hc
  simp only [ratToChars] at hc
  split_ifs at hc with h
  · obtain ⟨d, hd, he⟩ := mem_natToChars _ _ hc
    exact digitToChar_ne_comma d hd he.symm
  · rcases List.mem_append.1 hc with h1 | h1
    · obtain ⟨d, hd, he⟩ := mem_natToChars _ _ h1
      exact digitToChar_ne_comma d hd he.symm
    · rcases List.mem_cons.1 h1 with h2 | h2
      · exact absurd h2 (by decide)
      · obtain ⟨d, hd, he⟩ := mem_fracChars _ _ _ h2
        exact digitToChar_ne_comma d hd he.symm

/-- Parsing inverts rendering on naturals. -/
theorem charsToNat_natToChars (n : ℕ) : charsToNat (natToChars n) = n := by
  unfold natToChars charsToNat
  split_ifs with h
  · subst h
    decide
  · have hdig : ∀ d ∈ (Nat.digits 10 n).reverse,
        charToDigit (digitToChar d) = (fun d => d) d := by
      intro d hd
      exact charToDigit_digitToChar d (Nat.digits_lt_base (by norm_num) (List.mem_reverse.1 hd))
    rw [List.map_map]
    rw [show (charToDigit ∘ digitToChar) = fun d => charToDigit (digitToChar d) from rfl]
    rw [List.map_congr_left hdig]
    simp [Nat.ofDigits_digits]

/-- `Nat.ofDigits` ignores trailing zero digits. -/
theorem ofDigits_replicate_zero (b k : ℕ) : Nat.ofDigits b (List.replicate k 0) = 0 := by
  induction k with
  | zero => rfl
  | succ k ih => simp [List.replicate_succ, Nat.ofDigits_cons, ih]

/-- Parsing inverts the zero-padded fractional rendering. -/
theorem charsToNat_fracChars (fr e : ℕ) : charsToNat (fracChars fr e) = fr := by
  unfold fracChars charsToNat
  rw [List.map_append, List.reverse_append]
  have hz : (List.replicate (e - (Nat.digits 10 fr).length) '0').map charToDigit
      = List.replicate (e - (Nat.digits 10 fr).length) 0 := by
    rw [List.map_replicate]
    rfl
  rw [hz, List.reverse_replicate]
  have hdig : ∀ d ∈ (Nat.digits 10 fr).reverse,
      charToDigit (digitToChar d) = (fun d => d) d := by
    intro d hd
    exact charToDigit_digitToChar d (Nat.digits_lt_base (by norm_num) (List.mem_reverse.1 hd))
  rw [List.map_map]
  rw [show (charToDigit ∘ digitToChar) = fun d => charToDigit (digitToChar d) from rfl]
  rw [List.map_congr_left hdig]
  simp only [List.map_id', List.reverse_reverse]
  rw [Nat.ofDigits_append, ofDigits_replicate_zero, Nat.ofDigits_digits]
  ring

/-- The fractional block has exactly `e` characters. -/
theorem fracChars_length (fr e : ℕ) (h : fr < 10 ^ e) : (fracChars fr e).length = e := by
  have hlen : (Nat.digits 10 fr).length ≤ e := by
    rcases Nat.eq_zero_or_pos fr with rfl | hfr
    · simp
    · rw [Nat.digits_len 10 fr (by norm_num) (by omega)]
      have := Nat.log_lt_of_lt_pow (by omega : fr ≠ 0) h
      omega
  unfold fracChars
  simp only [List.length_append, List.length_replicate, List.length_map,
    List.length_reverse]
  omega

/-- Parsing inverts rendering on non-negative terminating rationals. -/
theorem parseDecimal_ratToChars (q : ℚ) (hq : 0 ≤ q) (ht : terminatingDec q) :
    parseDecimal (ratToChars q) = q := by
  have hdvd : q.den ∣ 10 ^ decExp q.den := Nat.dvd_of_mod_eq_zero ht
  have hdvd2 : q.den ∣ q.num.toNat * 10 ^ decExp q.den := hdvd.mul_left _
  have hkey : q.num.toNat * 10 ^ decExp q.den / q.den * q.den
      = q.num.toNat * 10 ^ decExp q.den := Nat.div_mul_cancel hdvd2
  have hnum : ((q.num.toNat : ℤ)) = q.num := Int.toNat_of_nonneg (Rat.num_nonneg.2 hq)
  have hNq : ((q.num.toNat : ℚ)) = (q.num : ℚ) := by exact_mod_cast hnum
  have hden : ((q.den : ℚ)) ≠ 0 := by
    exact_mod_cast q.den_nz
  have h4 : (q.num : ℚ) = q * (q.den : ℚ) := by
    have h5 := Rat.num_div_den q
    rw [div_eq_iff hden] at h5
    exact h5
  by_cases h0 : decExp q.den = 0
  · have hden1 : q.den = 1 := by
      rw [h0, pow_zero] at hdvd
      exact Nat.dvd_one.1 hdvd
    have hrt : ratToChars q = natToChars q.num.toNat := by
      simp [ratToChars, hden1, show decExp 1 = 0 from by decide]
    rw [hrt]
    simp only [parseDecimal, splitOnChar_of_not_mem _ _ (dot_not_mem_natToChars _),
      charsToNat_natToChars]
    rw [hNq, h4, hden1]
    norm_num
  · have hpow : ((10 : ℚ)) ^ decExp q.den ≠ 0 := by positivity
    have hfr : q.num.toNat * 10 ^ decExp q.den / q.den % 10 ^ decExp q.den
        < 10 ^ decExp q.den := Nat.mod_lt _ (by positivity)
    have hrt : ratToChars q
        = natToChars (q.num.toNat * 10 ^ decExp q.den / q.den / 10 ^ decExp q.den)
          ++ '.' :: fracChars (q.num.toNat * 10 ^ decExp q.den / q.den % 10 ^ decExp q.den)
              (decExp q.den) := by
      simp only [ratToChars]
      rw [if_neg h0]
    rw [hrt]
    simp only [parseDecimal, splitOnChar_append _ _ _ (dot_not_mem_natToChars _),
      splitOnChar_of_not_mem _ _ (dot_not_mem_fracChars _ _), charsToNat_natToChars,
      charsToNat_fracChars, fracChars_length _ _ hfr]
    have h1 : ((q.num.toNat * 10 ^ decExp q.den / q.den : ℕ) : ℚ)
        = ((q.num.toNat * 10 ^ decExp q.den / q.den / 10 ^ decExp q.den : ℕ) : ℚ)
            * (10 : ℚ) ^ decExp q.den
          + ((q.num.toNat * 10 ^ decExp q.den / q.den % 10 ^ decExp q.den : ℕ) : ℚ) := by
      exact_mod_cast
        (Nat.div_add_mod' (q.num.toNat * 10 ^ decExp q.den / q.den) (10 ^ decExp q.den)).symm
    have h3 : ((q.num.toNat * 10 ^ decExp q.den / q.den : ℕ) : ℚ) * (q.den : ℚ)
        = ((q.num.toNat : ℚ)) * (10 : ℚ) ^ decExp q.den := by
      exact_mod_cast congrArg (Nat.cast (R := ℚ)) hkey
    have h2 : q * (10 : ℚ) ^ decExp q.den
        = ((q.num.toNat * 10 ^ decExp q.den / q.den : ℕ) : ℚ) := by
      apply mul_right_cancel₀ hden
      calc q * (10 : ℚ) ^ decExp q.den * (q.den : ℚ)
          = (q * (q.den : ℚ)) * (10 : ℚ) ^ decExp q.den := by ring
        _ = (q.num : ℚ) * (10 : ℚ) ^ decExp q.den := by rw [← h4]
        _ = ((q.num.toNat : ℚ)) * (10 : ℚ) ^ decExp q.den := by rw [hNq]
        _ = ((q.num.toNat * 10 ^ decExp q.den / q.den : ℕ) : ℚ) * (q.den : ℚ) := h3.symm
    rw [eq_comm, ← mul_right_cancel_iff_of_pos (show (0:ℚ) < (10:ℚ) ^ decExp q.den by positivity)]
    rw [add_mul, div_mul_cancel₀ _ hpow, h2, h1]
/-- Splitting a `_pushBarToRedis` member string on commas recovers the
five rendered fields. -/
theorem splitOnChar_encodeBar (b : TapeBar) :
    splitOnChar ',' (encodeBar b)
      = [ratToChars b.open_, ratToChars b.high, ratToChars b.low,
         ratToChars b.close, ratToChars b.volume] := by
  simp only [encodeBar]
  rw [splitOnChar_append _ _ _ (comma_not_mem_ratToChars _),
    splitOnChar_append _ _ _ (comma_not_mem_ratToChars _),
    splitOnChar_append _ _ _ (comma_not_mem_ratToChars _),
    splitOnChar_append _ _ _ (comma_not_mem_ratToChars _),
    splitOnChar_of_not_mem _ _ (comma_not_mem_ratToChars _)]

/-- The store after a `zadd`: any entry with the same member string is
removed and the `(score, member)` pair is appended. -/
theorem BarBuilder.store_pushBarToRedis (b : BarBuilder) (sec : ℤ) (o h l c v : ℚ) :
    (b.pushBarToRedis sec o h l c v).store
      = b.store.filter (fun e => encodeBar e.2 ≠ encodeBar ⟨o, h, l, c, v⟩)
          ++ [(sec, ⟨o, h, l, c, v⟩)] := rfl

/-- `_pushBarToRedis` leaves the in-memory close unchanged. -/
theorem BarBuilder.close_pushBarToRedis (b : BarBuilder) (sec : ℤ) (o h l c v : ℚ) :
    (b.pushBarToRedis sec o h l c v).close = b.close := rfl

/-- C3: code bug — the claimed gap fill is not what the program stores.
After `onTrade(2, 5, t=1000000)` then `onTrade(3, 7, t=1004000)` the bar
at second 1000 is flushed as claimed and a fresh in-memory bar opens at
second 1004 as claimed, but the three flat gap bars are one and the same
member string ("2,2,2,2,0") and redis `ZADD` keys by member, so each
gap-fill `zadd` moves that single member forward: the store ends holding
the flat bar only at second 1003 and holds no bar at all at seconds 1001
and 1002, not the claimed flat bars at every one of 1001, 1002, 1003. -/
theorem C3_price_tape_gap_fill :
    (((BarBuilder.mk0.onTrade 2 5 1000000).onTrade 3 7 1004000).store
        = [(1000, ⟨2, 2, 2, 2, 5⟩), (1003, flatBar 2)])
    ∧ (∀ bar : TapeBar,
        ((1001 : ℤ), bar) ∉ ((BarBuilder.mk0.onTrade 2 5 1000000).onTrade 3 7 1004000).store
        ∧ ((1002 : ℤ), bar) ∉ ((BarBuilder.mk0.onTrade 2 5 1000000).onTrade 3 7 1004000).store)
    ∧ ((BarBuilder.mk0.onTrade 2 5 1000000).onTrade 3 7 1004000).secBucketTS = some 1004
    ∧ ((BarBuilder.mk0.onTrade 2 5 1000000).onTrade 3 7 1004000).open_ = 3
    ∧ ((BarBuilder.mk0.onTrade 2 5 1000000).onTrade 3 7 1004000).high = 3
    ∧ ((BarBuilder.mk0.onTrade 2 5 1000000).onTrade 3 7 1004000).low = 3
    ∧ ((BarBuilder.mk0.onTrade 2 5 1000000).onTrade 3 7 1004000).close = 3
    ∧ ((BarBuilder.mk0.onTrade 2 5 1000000).onTrade 3 7 1004000).volume = 7 := by
  have t5 : terminatingDec (5 : ℚ) := by norm_num [terminatingDec, decExp]; decide
  have t0 : terminatingDec (0 : ℚ) := by norm_num [terminatingDec, decExp]; decide
  have hne : encodeBar (⟨2, 2, 2, 2, 5⟩ : TapeBar) ≠ encodeBar (⟨2, 2, 2, 2, 0⟩ : TapeBar) := by
    intro hcontra
    have hsp := congrArg (splitOnChar ',') hcontra
    rw [splitOnChar_encodeBar, splitOnChar_encodeBar] at hsp
    simp only [List.cons.injEq, and_true] at hsp
    have h50 := congrArg parseDecimal hsp.2.2.2.2
    rw [parseDecimal_ratToChars 5 (by norm_num) t5,
      parseDecimal_ratToChars 0 (by norm_num) t0] at h50
    norm_num at h50
  have hred : (BarBuilder.mk0.onTrade 2 5 1000000).onTrade 3 7 1004000
      = ((⟨some 1000, 2, 2, 2, 2, 5,
            [((1000 : ℤ), (⟨2, 2, 2, 2, 5⟩ : TapeBar))]⟩ : BarBuilder).fillGap
          1000 1004).startNewBar 1004 3 7 := rfl
  have hstore : ((BarBuilder.mk0.onTrade 2 5 1000000).onTrade 3 7 1004000).store
      = [(1000, ⟨2, 2, 2, 2, 5⟩), (1003, flatBar 2)] := by
    rw [hred]
    rw [show ((⟨some 1000, 2, 2, 2, 2, 5,
          [((1000 : ℤ), (⟨2, 2, 2, 2, 5⟩ : TapeBar))]⟩ : BarBuilder).fillGap 1000 1004)
        = [(1001 : ℤ), 1002, 1003].foldl
            (fun acc s =>
              acc.pushBarToRedis s acc.close acc.close acc.close acc.close 0)
            (⟨some 1000, 2, 2, 2, 2, 5,
              [((1000 : ℤ), (⟨2, 2, 2, 2, 5⟩ : TapeBar))]⟩ : BarBuilder) from rfl]
    simp only [List.foldl_cons, List.foldl_nil]
    simp [BarBuilder.store_pushBarToRedis, BarBuilder.close_pushBarToRedis,
      BarBuilder.startNewBar, hne, flatBar]
  refine ⟨hstore, ?_, rfl, rfl, rfl, rfl, rfl, rfl⟩
  intro bar
  refine ⟨fun hmem => ?_, fun hmem => ?_⟩
  · rw [hstore] at hmem
    simp [flatBar] at hmem
  · rw [hstore] at hmem
    simp [flatBar] at hmem



/-- `updateTimeCache` never touches the cooldown stamp. -/
theorem SymbolMonitor.updateTimeCache_lastSignal (s : MonitorState) (now : ℤ) :
    (SymbolMonitor.updateTimeCache s now).lastSignalTriggerTime
      = s.lastSignalTriggerTime := by
  unfold SymbolMonitor.updateTimeCache
  split <;> rfl

/-- `updateTimeCache` never touches the symbol. -/
theorem SymbolMonitor.updateTimeCache_symbol (s : MonitorState) (now : ℤ) :
    (SymbolMonitor.updateTimeCache s now).symbol = s.symbol := by
  unfold SymbolMonitor.updateTimeCache
  split <;> rfl

/-- Case analysis of the gate body: either a guard failed and it returns
no vector, leaves the state untouched and enqueues nothing, or every
guard passed (in particular the cooldown guard), the stamp is set to
`now` and exactly the four follow-up tasks are enqueued. -/
theorem SymbolMonitor.checkSignalCore_cases (s : MonitorState) (now : ℤ) (id : String) :
    ((SymbolMonitor.checkSignalCore s now id).vector = none
      ∧ (SymbolMonitor.checkSignalCore s now id).state = s
      ∧ (SymbolMonitor.checkSignalCore s now id).tasks = [])
    ∨ ((SymbolMonitor.checkSignalCore s now id).vector.isSome
      ∧ params.SIGNAL_COOLDOWN_MS ≤ now - s.lastSignalTriggerTime
      ∧ (SymbolMonitor.checkSignalCore s now id).state
          = { s with lastSignalTriggerTime := now }
      ∧ (SymbolMonitor.checkSignalCore s now id).tasks = mkTasks id s.symbol now) := by
  unfold SymbolMonitor.checkSignalCore
  by_cases h1 : s.lastPrice = 0 ∨ s.ewma5mVolumeBaseline = 0
  · rw [if_pos h1]
    exact Or.inl ⟨rfl, rfl, rfl⟩
  rw [if_neg h1]
  by_cases h2 : s.returnHistory.size < 30 ∨ s.volatility30s = 0
  · rw [if_pos h2]
    exact Or.inl ⟨rfl, rfl, rfl⟩
  rw [if_neg h2]
  by_cases h3 : s.ticker24hrVolumeUsdt < MIN_24H_VOLUME_USD
  · rw [if_pos h3]
    exact Or.inl ⟨rfl, rfl, rfl⟩
  rw [if_neg h3]
  by_cases h4 : ¬ SymbolMonitor.hasSufficientLiquidity s
  · rw [if_pos h4]
    exact Or.inl ⟨rfl, rfl, rfl⟩
  rw [if_neg h4]
  by_cases h5 : now - s.lastSignalTriggerTime < params.SIGNAL_COOLDOWN_MS
  · rw [if_pos h5]
    exact Or.inl ⟨rfl, rfl, rfl⟩
  rw [if_neg h5]
  by_cases h6 : SymbolMonitor.maxVolByTier s.marketCapTier < s.volatility5m
      ∨ s.volatility5m < 0.05
  · rw [if_pos h6]
    exact Or.inl ⟨rfl, rfl, rfl⟩
  rw [if_neg h6]
  by_cases h7 : s.bestBid ≤ 0 ∨ s.bestAsk ≤ s.bestBid
  · rw [if_pos h7]
    exact Or.inl ⟨rfl, rfl, rfl⟩
  rw [if_neg h7]
  by_cases h8 : params.MAX_BID_ASK_SPREAD_PCT < SymbolMonitor.spreadPctOf s
  · rw [if_pos h8]
    exact Or.inl ⟨rfl, rfl, rfl⟩
  rw [if_neg h8]
  by_cases h9 : (3.0 : ℝ) < SymbolMonitor.normalizedSpreadOf s
  · rw [if_pos h9]
    exact Or.inl ⟨rfl, rfl, rfl⟩
  rw [if_neg h9]
  by_cases h10 : ¬ SymbolMonitor.isVolumeSpike s
  · rw [if_pos h10]
    exact Or.inl ⟨rfl, rfl, rfl⟩
  rw [if_neg h10]
  cases hm : SymbolMonitor.getHistoricalPrice s (now - params.PRICE_LOOKBACK_WINDOW_MS) with
  | none =>
    exact Or.inl (by simp [SymbolMonitor.checkSignalMomentum])
  | some priceLookback =>
    simp only [SymbolMonitor.checkSignalMomentum]
    by_cases h11 : s.lastPrice ≤ priceLookback
    · rw [if_pos h11]
      exact Or.inl ⟨rfl, rfl, rfl⟩
    rw [if_neg h11]
    by_cases h12 : SymbolMonitor.slopeZOf s < params.PRICE_SLOPE_ZSCORE
    · rw [if_pos h12]
      exact Or.inl ⟨rfl, rfl, rfl⟩
    rw [if_neg h12]
    by_cases h13 : SymbolMonitor.priceZScoreOf s priceLookback < 1.5
    · rw [if_pos h13]
      exact Or.inl ⟨rfl, rfl, rfl⟩
    rw [if_neg h13]
    exact Or.inr ⟨rfl, by omega, rfl, rfl⟩

/-- Case analysis of one full `checkSignal` call, against the state the
call started from. -/
theorem SymbolMonitor.checkSignal_cases (s0 : MonitorState) (now : ℤ) (id : String) :
    ((SymbolMonitor.checkSignal s0 now id).vector = none
      ∧ (SymbolMonitor.checkSignal s0 now id).state.lastSignalTriggerTime
          = s0.lastSignalTriggerTime
      ∧ (SymbolMonitor.checkSignal s0 now id).tasks = [])
    ∨ ((SymbolMonitor.checkSignal s0 now id).vector.isSome
      ∧ params.SIGNAL_COOLDOWN_MS ≤ now - s0.lastSignalTriggerTime
      ∧ (SymbolMonitor.checkSignal s0 now id).state.lastSignalTriggerTime = now
      ∧ (SymbolMonitor.checkSignal s0 now id).tasks = mkTasks id s0.symbol now) := by
  have hlast := SymbolMonitor.updateTimeCache_lastSignal s0 now
  have hsym := SymbolMonitor.updateTimeCache_symbol s0 now
  rcases SymbolMonitor.checkSignalCore_cases (SymbolMonitor.updateTimeCache s0 now) now id
    with ⟨h1, h2, h3⟩ | ⟨h1, h2, h3, h4⟩
  · refine Or.inl ⟨h1, ?_, h3⟩
    show (SymbolMonitor.checkSignalCore (SymbolMonitor.updateTimeCache s0 now) now id).state.lastSignalTriggerTime = _
    rw [h2, hlast]
  · refine Or.inr ⟨h1, ?_, ?_, ?_⟩
    · rw [hlast] at h2
      exact h2
    · show (SymbolMonitor.checkSignalCore (SymbolMonitor.updateTimeCache s0 now) now id).state.lastSignalTriggerTime = now
      rw [h3]
    · show (SymbolMonitor.checkSignalCore (SymbolMonitor.updateTimeCache s0 now) now id).tasks = _
      rw [h4, hsym]

/-- A call inside the cooldown window returns no signal. -/
theorem SymbolMonitor.checkSignal_blocked (s : MonitorState) (now : ℤ) (id : String)
    (h : now - s.lastSignalTriggerTime < params.SIGNAL_COOLDOWN_MS) :
    (SymbolMonitor.checkSignal s now id).vector = none := by
  rcases SymbolMonitor.checkSignal_cases s now id with ⟨h1, _, _⟩ | ⟨_, h2, _, _⟩
  · exact h1
  · exact absurd h2 (not_le.2 h)

/-- A call that emits no signal keeps the cooldown stamp. -/
theorem SymbolMonitor.checkSignal_none_state (s : MonitorState) (now : ℤ) (id : String)
    (h : (SymbolMonitor.checkSignal s now id).vector = none) :
    (SymbolMonitor.checkSignal s now id).state.lastSignalTriggerTime
      = s.lastSignalTriggerTime := by
  rcases SymbolMonitor.checkSignal_cases s now id with ⟨_, h1, _⟩ | ⟨h1, _, _, _⟩
  · exact h1
  · rw [h] at h1
    simp at h1

/-- A call that emits sets the stamp to `now` and passed the cooldown. -/
theorem SymbolMonitor.checkSignal_some_state (s : MonitorState) (now : ℤ) (id : String)
    (h : (SymbolMonitor.checkSignal s now id).vector.isSome) :
    params.SIGNAL_COOLDOWN_MS ≤ now - s.lastSignalTriggerTime
    ∧ (SymbolMonitor.checkSignal s now id).state.lastSignalTriggerTime = now
    ∧ (SymbolMonitor.checkSignal s now id).tasks = mkTasks id s.symbol now := by
  rcases SymbolMonitor.checkSignal_cases s now id with ⟨h1, _, _⟩ | ⟨_, h2, h3, h4⟩
  · rw [h1] at h
    simp at h
  · exact ⟨h2, h3, h4⟩

/-- The aggTrade handler never touches the cooldown stamp. -/
theorem SymbolMonitor.addAggTrade_lastSignal (s : MonitorState) (t : AggTrade) :
    (SymbolMonitor.addAggTrade s t).lastSignalTriggerTime = s.lastSignalTriggerTime := by
  simp only [SymbolMonitor.addAggTrade]
  split_ifs <;> rfl

/-- The ticker handler never touches the cooldown stamp. -/
theorem SymbolMonitor.applyTickerUpdate_lastSignal (s : MonitorState) (q P h l c : ℝ) :
    (SymbolMonitor.applyTickerUpdate s q P h l c).lastSignalTriggerTime
      = s.lastSignalTriggerTime :=
  rfl

/-- The book ticker handler never touches the cooldown stamp. -/
theorem SymbolMonitor.applyBookTickerUpdate_lastSignal (s : MonitorState) (bid ask : ℝ) :
    (SymbolMonitor.applyBookTickerUpdate s bid ask).lastSignalTriggerTime
      = s.lastSignalTriggerTime := by
  simp only [SymbolMonitor.applyBookTickerUpdate]
  split_ifs <;> rfl

/-- The depth handler never touches the cooldown stamp. -/
theorem SymbolMonitor.updateDepthSnapshot_lastSignal (s : MonitorState)
    (bids asks : List (ℝ × ℝ)) :
    (SymbolMonitor.updateDepthSnapshot s bids asks).lastSignalTriggerTime
      = s.lastSignalTriggerTime := by
  simp only [SymbolMonitor.updateDepthSnapshot, SymbolMonitor.updateImbalanceFeatures]
  split_ifs <;> rfl

theorem SymbolMonitor.volatilitySection_lastSignal (s : MonitorState) (now : ℤ) :
    (SymbolMonitor.volatilitySection s now).lastSignalTriggerTime
      = s.lastSignalTriggerTime := by
  simp only [SymbolMonitor.volatilitySection, SymbolMonitor.updateVolatility]
  split_ifs <;> rfl

theorem SymbolMonitor.tradeAggSection_lastSignal (s : MonitorState) (now : ℤ) :
    (SymbolMonitor.tradeAggSection s now).lastSignalTriggerTime
      = s.lastSignalTriggerTime :=
  rfl

theorem SymbolMonitor.ewmaSection_lastSignal (s : MonitorState) :
    (SymbolMonitor.ewmaSection s).lastSignalTriggerTime = s.lastSignalTriggerTime :=
  rfl

theorem SymbolMonitor.priceBucketSection_lastSignal (s : MonitorState) (now : ℤ) :
    (SymbolMonitor.priceBucketSection s now).lastSignalTriggerTime
      = s.lastSignalTriggerTime := by
  simp only [SymbolMonitor.priceBucketSection]
  split_ifs <;> try rfl
  split <;> first | rfl | (split_ifs <;> rfl)

theorem SymbolMonitor.updateEMAAlignment_lastSignal (s : MonitorState) (p : ℝ) :
    (SymbolMonitor.updateEMAAlignment s p).lastSignalTriggerTime
      = s.lastSignalTriggerTime :=
  rfl

theorem SymbolMonitor.updateRSI_lastSignal (s : MonitorState) (p : ℝ) :
    (SymbolMonitor.updateRSI s p).lastSignalTriggerTime = s.lastSignalTriggerTime := by
  simp only [SymbolMonitor.updateRSI, SymbolMonitor.setRsiFromAverages]
  split_ifs <;> rfl

theorem SymbolMonitor.updateMACD_lastSignal (s : MonitorState) (p : ℝ) :
    (SymbolMonitor.updateMACD s p).lastSignalTriggerTime = s.lastSignalTriggerTime :=
  rfl

theorem SymbolMonitor.indicatorSection_lastSignal (s : MonitorState) :
    (SymbolMonitor.indicatorSection s).lastSignalTriggerTime
      = s.lastSignalTriggerTime := by
  unfold SymbolMonitor.indicatorSection
  rw [SymbolMonitor.updateMACD_lastSignal, SymbolMonitor.updateRSI_lastSignal,
    SymbolMonitor.updateEMAAlignment_lastSignal]

theorem SymbolMonitor.takerFlowSection_lastSignal (s : MonitorState) :
    (SymbolMonitor.takerFlowSection s).lastSignalTriggerTime
      = s.lastSignalTriggerTime :=
  rfl

theorem SymbolMonitor.accelSigmaSection_lastSignal (s : MonitorState) :
    (SymbolMonitor.accelSigmaSection s).lastSignalTriggerTime
      = s.lastSignalTriggerTime := by
  simp only [SymbolMonitor.accelSigmaSection]
  split_ifs <;> rfl

theorem SymbolMonitor.priceSlopeSection_lastSignal (s : MonitorState) (now : ℤ) :
    (SymbolMonitor.priceSlopeSection s now).lastSignalTriggerTime
      = s.lastSignalTriggerTime := by
  simp only [SymbolMonitor.priceSlopeSection]
  split_ifs <;> rfl

/-- The whole periodic computation never touches the cooldown stamp. -/
theorem SymbolMonitor.performPeriodicCalculations_lastSignal (s : MonitorState)
    (now : ℤ) :
    (SymbolMonitor.performPeriodicCalculations s now).lastSignalTriggerTime
      = s.lastSignalTriggerTime := by
  unfold SymbolMonitor.performPeriodicCalculations
  rw [SymbolMonitor.priceSlopeSection_lastSignal,
    SymbolMonitor.accelSigmaSection_lastSignal,
    SymbolMonitor.takerFlowSection_lastSignal,
    SymbolMonitor.indicatorSection_lastSignal,
    SymbolMonitor.priceBucketSection_lastSignal,
    SymbolMonitor.ewmaSection_lastSignal,
    SymbolMonitor.tradeAggSection_lastSignal,
    SymbolMonitor.volatilitySection_lastSignal]

/-- A dispatch step that emits nothing keeps the cooldown stamp. -/
theorem stepMonitor_none (s : MonitorState) (e : StreamEvent)
    (h : (stepMonitor s e).2 = none) :
    ((stepMonitor s e).1).lastSignalTriggerTime = s.lastSignalTriggerTime := by
  cases e with
  | aggTrade d => exact SymbolMonitor.addAggTrade_lastSignal s d
  | ticker q P hh l c => exact SymbolMonitor.applyTickerUpdate_lastSignal s q P hh l c
  | bookTicker bid ask => exact SymbolMonitor.applyBookTickerUpdate_lastSignal s bid ask
  | depth bids asks => exact SymbolMonitor.updateDepthSnapshot_lastSignal s bids asks
  | tick now id =>
    have hmid := SymbolMonitor.performPeriodicCalculations_lastSignal s now
    simp only [stepMonitor] at h ⊢
    have hnone : (SymbolMonitor.checkSignal
        (SymbolMonitor.performPeriodicCalculations s now) now id).vector = none := by
      cases hv : (SymbolMonitor.checkSignal
          (SymbolMonitor.performPeriodicCalculations s now) now id).vector with
      | none => rfl
      | some v =>
        rw [hv] at h
        simp at h
    rw [SymbolMonitor.checkSignal_none_state _ _ _ hnone, hmid]

/-- A dispatch step that emits a signal at time `t` starts at least one
cooldown after the stamp and leaves the stamp at `t`. -/
theorem stepMonitor_some (s : MonitorState) (e : StreamEvent) (t : ℤ) (v : SignalVector)
    (h : (stepMonitor s e).2 = some (t, v)) :
    s.lastSignalTriggerTime + params.SIGNAL_COOLDOWN_MS ≤ t
    ∧ ((stepMonitor s e).1).lastSignalTriggerTime = t := by
  cases e with
  | aggTrade d => simp [stepMonitor] at h
  | ticker q P hh l c => simp [stepMonitor] at h
  | bookTicker bid ask => simp [stepMonitor] at h
  | depth bids asks => simp [stepMonitor] at h
  | tick now id =>
    have hmid := SymbolMonitor.performPeriodicCalculations_lastSignal s now
    simp only [stepMonitor] at h ⊢
    have hsome : (SymbolMonitor.checkSignal
        (SymbolMonitor.performPeriodicCalculations s now) now id).vector.isSome ∧ t = now := by
      cases hv : (SymbolMonitor.checkSignal
          (SymbolMonitor.performPeriodicCalculations s now) now id).vector with
      | none =>
        rw [hv] at h
        simp at h
      | some w =>
        rw [hv] at h
        simp at h
        exact ⟨rfl, h.1.symm⟩
    obtain ⟨hv, rfl⟩ := hsome
    have := SymbolMonitor.checkSignal_some_state _ _ id hv
    rw [hmid] at this
    exact ⟨by omega, this.2.1⟩

/-- Along any trace: every emission happens at least one cooldown after
the starting stamp and not after the final stamp, the stamp never
decreases, and consecutive emissions are at least one cooldown apart. -/
theorem runMonitor_emissions (s : MonitorState) (events : List StreamEvent) :
    (∀ e ∈ (runMonitor s events).2,
        s.lastSignalTriggerTime + params.SIGNAL_COOLDOWN_MS ≤ e.1
        ∧ e.1 ≤ ((runMonitor s events).1).lastSignalTriggerTime)
    ∧ s.lastSignalTriggerTime ≤ ((runMonitor s events).1).lastSignalTriggerTime
    ∧ (runMonitor s events).2.Pairwise
        (fun a b => a.1 + params.SIGNAL_COOLDOWN_MS ≤ b.1) := by
  induction events generalizing s with
  | nil => simp [runMonitor]
  | cons e es ih =>
    have hC : (0 : ℤ) ≤ params.SIGNAL_COOLDOWN_MS := by
      norm_num [params.SIGNAL_COOLDOWN_MS]
    have hrun : runMonitor s (e :: es)
        = ((runMonitor (stepMonitor s e).1 es).1,
            (stepMonitor s e).2.toList ++ (runMonitor (stepMonitor s e).1 es).2) := rfl
    obtain ⟨ihb, ihm, ihp⟩ := ih (stepMonitor s e).1
    cases hem : (stepMonitor s e).2 with
    | none =>
      have hkeep := stepMonitor_none s e hem
      rw [hrun, hem]
      simp only [Option.toList_none, List.nil_append]
      refine ⟨?_, ?_, ihp⟩
      · intro x hx
        have := ihb x hx
        rw [hkeep] at this
        exact this
      · rw [← hkeep]
        exact ihm
    | some tv =>
      obtain ⟨t, v⟩ := tv
      obtain ⟨hgap, hset⟩ := stepMonitor_some s e t v hem
      rw [hrun, hem]
      simp only [Option.toList_some, List.singleton_append]
      rw [hset] at ihb ihm
      refine ⟨?_, ?_, ?_⟩
      · intro x hx
        rcases List.mem_cons.1 hx with rfl | hx2
        · exact ⟨hgap, ihm⟩
        · have := ihb x hx2
          constructor
          · omega
          · exact this.2
      · omega
      · refine List.pairwise_cons.2 ⟨?_, ihp⟩
        intro x hx
        have := ihb x hx
        omega

/-- C1: `checkSignal` returns a vector only when at least
`SIGNAL_COOLDOWN_MS = 6000 ms` have elapsed since
`lastSignalTriggerTime`, and sets `lastSignalTriggerTime` to the tick
time on every emission; hence along every trace of events and ticks any
two emissions for the symbol are at least 6000 ms apart, so at most one
signal falls in any half-open 6-second window. -/
theorem C1_cooldown_per_symbol :
    (∀ (s : MonitorState) (now : ℤ) (id : String),
      now - s.lastSignalTriggerTime < params.SIGNAL_COOLDOWN_MS →
        (SymbolMonitor.checkSignal s now id).vector = none)
    ∧ (∀ (s : MonitorState) (now : ℤ) (id : String),
        (SymbolMonitor.checkSignal s now id).vector.isSome →
          params.SIGNAL_COOLDOWN_MS ≤ now - s.lastSignalTriggerTime
          ∧ (SymbolMonitor.checkSignal s now id).state.lastSignalTriggerTime = now)
    ∧ (∀ (s : MonitorState) (events : List StreamEvent),
        (runMonitor s events).2.Pairwise
          (fun a b => a.1 + params.SIGNAL_COOLDOWN_MS ≤ b.1))
    ∧ (∀ (s : MonitorState) (events : List StreamEvent) (w : ℤ),
        ((runMonitor s events).2.filter
          (fun e => decide (w ≤ e.1 ∧ e.1 < w + params.SIGNAL_COOLDOWN_MS))).length ≤ 1) := by
  refine ⟨?_, ?_, ?_, ?_⟩
  · intro s now id h
    exact SymbolMonitor.checkSignal_blocked s now id h
  · intro s now id h
    have := SymbolMonitor.checkSignal_some_state s now id h
    exact ⟨this.1, this.2.1⟩
  · intro s events
    exact (runMonitor_emissions s events).2.2
  · intro s events w
    have hp : ((runMonitor s events).2.filter
        (fun e => decide (w ≤ e.1 ∧ e.1 < w + params.SIGNAL_COOLDOWN_MS))).Pairwise
          (fun a b => a.1 + params.SIGNAL_COOLDOWN_MS ≤ b.1) :=
      List.Pairwise.sublist (List.filter_sublist _) (runMonitor_emissions s events).2.2
    cases hL : (runMonitor s events).2.filter
        (fun e => decide (w ≤ e.1 ∧ e.1 < w + params.SIGNAL_COOLDOWN_MS)) with
    | nil => simp [hL]
    | cons x rest =>
      cases rest with
      | nil => simp [hL]
      | cons y rest2 =>
        exfalso
        have hx : x ∈ (runMonitor s events).2.filter
            (fun e => decide (w ≤ e.1 ∧ e.1 < w + params.SIGNAL_COOLDOWN_MS)) := by
          rw [hL]
          exact List.mem_cons_self x _
        have hy : y ∈ (runMonitor s events).2.filter
            (fun e => decide (w ≤ e.1 ∧ e.1 < w + params.SIGNAL_COOLDOWN_MS)) := by
          rw [hL]
          exact List.mem_cons.2 (Or.inr (List.mem_cons_self y _))
        have hxw : w ≤ x.1 ∧ x.1 < w + params.SIGNAL_COOLDOWN_MS := by
          have := List.of_mem_filter hx
          simpa using this
        have hyw : w ≤ y.1 ∧ y.1 < w + params.SIGNAL_COOLDOWN_MS := by
          have := List.of_mem_filter hy
          simpa using this
        rw [hL] at hp
        have hxy : x.1 + params.SIGNAL_COOLDOWN_MS ≤ y.1 :=
          (List.pairwise_cons.1 hp).1 y (List.mem_cons_self y _)
        omega

/-- C8: on every signal emission exactly four delayed follow-up tasks
are enqueued with the persisted signal's id: one task on queue
`gate_price` with payload `{id, symbol, timestamp}` and delay
`31*60*1000 = 1860000 ms`, and three tasks of kind `gate_orderbook` on
queue `gate_order` with tOffsets 3, 10, 30 and delays 3000, 10000,
30000 ms; all four carry `removeOnComplete = removeOnFail = true`.  With
no emission nothing is enqueued. -/
theorem C8_followup_tasks (s : MonitorState) (now : ℤ) (id : String) :
    ((SymbolMonitor.checkSignal s now id).vector.isSome →
      (SymbolMonitor.checkSignal s now id).tasks =
        [⟨"gate_price", "gate_price", id, s.symbol, some now, none, 1860000, true, true⟩,
         ⟨"gate_order", "gate_orderbook", id, s.symbol, none, some 3, 3000, true, true⟩,
         ⟨"gate_order", "gate_orderbook", id, s.symbol, none, some 10, 10000, true, true⟩,
         ⟨"gate_order", "gate_orderbook", id, s.symbol, none, some 30, 30000, true, true⟩]
      ∧ (SymbolMonitor.checkSignal s now id).tasks.length = 4
      ∧ ∀ tk ∈ (SymbolMonitor.checkSignal s now id).tasks,
          tk.id = id ∧ tk.removeOnComplete = true ∧ tk.removeOnFail = true)
    ∧ ((SymbolMonitor.checkSignal s now id).vector = none →
        (SymbolMonitor.checkSignal s now id).tasks = []) := by
  constructor
  · intro h
    have htasks := (SymbolMonitor.checkSignal_some_state s now id h).2.2
    have hlist : mkTasks id s.symbol now =
        [⟨"gate_price", "gate_price", id, s.symbol, some now, none, 1860000, true, true⟩,
         ⟨"gate_order", "gate_orderbook", id, s.symbol, none, some 3, 3000, true, true⟩,
         ⟨"gate_order", "gate_orderbook", id, s.symbol, none, some 10, 10000, true, true⟩,
         ⟨"gate_order", "gate_orderbook", id, s.symbol, none, some 30, 30000, true, true⟩] := by
      simp [mkTasks, EXCHANGE]
    rw [htasks, hlist]
    refine ⟨rfl, rfl, ?_⟩
    intro tk htk
    simp only [List.mem_cons, List.not_mem_nil, or_false] at htk
    rcases htk with rfl | rfl | rfl | rfl <;> exact ⟨rfl, rfl, rfl⟩
  · intro h
    rcases SymbolMonitor.checkSignal_cases s now id with ⟨_, _, h3⟩ | ⟨h1, _, _, _⟩
    · exact h3
    · rw [h] at h1
      simp at h1

/-- C9: whenever `bestAsk > bestBid > 0`, the spread percentage
`(bestAsk - bestBid) / bestAsk` computed by `checkSignal` lies strictly
between 0 and 1. -/
theorem C9_spread_bounds (s : MonitorState) (hb : 0 < s.bestBid)
    (ha : s.bestBid < s.bestAsk) :
    0 < SymbolMonitor.spreadPctOf s ∧ SymbolMonitor.spreadPctOf s < 1 := by
  have haskpos : 0 < s.bestAsk := lt_trans hb ha
  constructor
  · exact div_pos (by linarith) haskpos
  · rw [SymbolMonitor.spreadPctOf, div_lt_one haskpos]
    linarith

/-- Witness for C9 at a concrete monitor: best bid 100, best ask 101. -/
theorem C9_spread_bounds_witness :
    0 < SymbolMonitor.spreadPctOf
        { SymbolMonitor.init "BTC_USDT" Tier.mid with bestBid := 100, bestAsk := 101 }
    ∧ SymbolMonitor.spreadPctOf
        { SymbolMonitor.init "BTC_USDT" Tier.mid with bestBid := 100, bestAsk := 101 } < 1 :=
  C9_spread_bounds
    { SymbolMonitor.init "BTC_USDT" Tier.mid with bestBid := 100, bestAsk := 101 }
    (by norm_num [SymbolMonitor.init]) (by norm_num [SymbolMonitor.init])

/-- C10: the cooldown stamp is written before the document insert and
the enqueues, so the monitor state returned by `checkSignal` does not
depend on whether the persist or any enqueue fails; after an emission
whose effects failed, every `checkSignal` call within the next
`SIGNAL_COOLDOWN_MS` still returns no signal. -/
theorem C10_cooldown_survives_failures (s : MonitorState) (now : ℤ) (id : String)
    (persistOk : Bool) (enqOk : Task → Bool) :
    ((checkSignalWithEffects s now id persistOk enqOk).2.1
        = (SymbolMonitor.checkSignal s now id).state)
    ∧ ((SymbolMonitor.checkSignal s now id).vector.isSome →
        (checkSignalWithEffects s now id persistOk enqOk).2.1.lastSignalTriggerTime = now)
    ∧ (∀ (t2 : ℤ) (id2 : String),
        (SymbolMonitor.checkSignal s now id).vector.isSome →
        t2 - now < params.SIGNAL_COOLDOWN_MS →
        (SymbolMonitor.checkSignal
          ((checkSignalWithEffects s now id persistOk enqOk).2.1) t2 id2).vector = none) := by
  have hstate : (checkSignalWithEffects s now id persistOk enqOk).2.1
      = (SymbolMonitor.checkSignal s now id).state := by
    simp only [checkSignalWithEffects]
    cases hv : (SymbolMonitor.checkSignal s now id).vector with
    | none => rfl
    | some v =>
      split_ifs <;> rfl
  refine ⟨hstate, ?_, ?_⟩
  · intro h
    rw [hstate]
    exact (SymbolMonitor.checkSignal_some_state s now id h).2.1
  · intro t2 id2 h hlt
    rw [hstate]
    apply SymbolMonitor.checkSignal_blocked
    rw [(SymbolMonitor.checkSignal_some_state s now id h).2.1]
    exact hlt

/-- Counterexample to C4 as stated: on a fresh monitor with
`lastPrice = 1` and `priceSlope = 1`, the tick at `now = 1000000` finds
no bucket price at `now - 2000` (the only bucket is the one the same
tick just opened), yet the slope is still updated — the source falls
back to `priceThen = lastPrice`, folds `slopePerSec = 0` into the EWMA
and decays the slope from 1 to 0.6. -/
theorem C4_price_slope_counterexample :
    sSlopeMiss.priceSlope = 1
    ∧ 0 < sSlopeMiss.lastPrice
    ∧ SymbolMonitor.getHistoricalPrice
        (SymbolMonitor.accelSigmaSection (SymbolMonitor.takerFlowSection
          (SymbolMonitor.indicatorSection (SymbolMonitor.priceBucketSection
            (SymbolMonitor.ewmaSection (SymbolMonitor.tradeAggSection
              (SymbolMonitor.volatilitySection sSlopeMiss 1000000) 1000000)) 1000000))))
        (1000000 - PRICE_SLOPE_LOOKBACK_MS) = none
    ∧ (SymbolMonitor.performPeriodicCalculations sSlopeMiss 1000000).priceSlope = 0.6
    ∧ (0.6 : ℝ) ≠ 1 := by
  refine ⟨rfl, by norm_num [sSlopeMiss, SymbolMonitor.init], ?_, ?_, by norm_num⟩
  · simp [SymbolMonitor.volatilitySection,
      SymbolMonitor.updateVolatility, SymbolMonitor.tradeAggSection, SymbolMonitor.recentTrades,
      SymbolMonitor.ewmaSection, SymbolMonitor.priceBucketSection, SymbolMonitor.indicatorSection,
      SymbolMonitor.updateEMAAlignment, SymbolMonitor.updateRSI, SymbolMonitor.setRsiFromAverages,
      SymbolMonitor.updateMACD, SymbolMonitor.takerFlowSection, SymbolMonitor.accelSigmaSection,
      SymbolMonitor.getHistoricalPrice,
      CircularBuffer.add, CircularBuffer.toArray, CircularBuffer.size, CircularBuffer.getNewest,
      CircularBuffer.mkEmpty, CircularBuffer.setNewest,
      sSlopeMiss, SymbolMonitor.init, params.PRICE_BUCKET_DURATION_MS, PRICE_SLOPE_LOOKBACK_MS,
      params.EWMA_ALPHA_VOL_FAST, params.EWMA_ALPHA_VOL_SLOW,
      params.EWMA_ALPHA_VOL_MED, alphaTakerRatio, maxTakerRatio, eps8]
  · simp [SymbolMonitor.performPeriodicCalculations, SymbolMonitor.volatilitySection,
      SymbolMonitor.updateVolatility, SymbolMonitor.tradeAggSection, SymbolMonitor.recentTrades,
      SymbolMonitor.ewmaSection, SymbolMonitor.priceBucketSection, SymbolMonitor.indicatorSection,
      SymbolMonitor.updateEMAAlignment, SymbolMonitor.updateRSI, SymbolMonitor.setRsiFromAverages,
      SymbolMonitor.updateMACD, SymbolMonitor.takerFlowSection, SymbolMonitor.accelSigmaSection,
      SymbolMonitor.priceSlopeSection, SymbolMonitor.getHistoricalPrice,
      CircularBuffer.add, CircularBuffer.toArray, CircularBuffer.size, CircularBuffer.getNewest,
      CircularBuffer.mkEmpty, CircularBuffer.setNewest,
      sSlopeMiss, SymbolMonitor.init, params.PRICE_BUCKET_DURATION_MS, PRICE_SLOPE_LOOKBACK_MS,
      params.PRICE_SLOPE_ALPHA, params.EWMA_ALPHA_VOL_FAST, params.EWMA_ALPHA_VOL_SLOW,
      params.EWMA_ALPHA_VOL_MED, alphaTakerRatio, maxTakerRatio, eps8]
    norm_num

/-- C4 (amended): the slope step of `performPeriodicCalculations` (its
last section) looks up the bucket price at `now - 2000 ms`; on a hit
with positive price it folds `slopePerSec = ((lastPrice - priceThen) /
priceThen) / 2` into `priceSlope` via an EWMA with alpha 0.4; on a miss
it falls back to `priceThen = lastPrice`, folding `slopePerSec = 0` in
(the claim's "updated only on a hit" fails); the resulting slope is
pushed to the 40-slot history, and once the history holds at least 20
entries `priceSlopeSigma` becomes its population standard deviation. -/
theorem C4_price_slope (s : MonitorState) (now : ℤ) :
    (SymbolMonitor.performPeriodicCalculations s now
        = SymbolMonitor.priceSlopeSection
            (SymbolMonitor.accelSigmaSection (SymbolMonitor.takerFlowSection
              (SymbolMonitor.indicatorSection (SymbolMonitor.priceBucketSection
                (SymbolMonitor.ewmaSection (SymbolMonitor.tradeAggSection
                  (SymbolMonitor.volatilitySection s now) now)) now)))) now)
    ∧ (0 < s.lastPrice →
        (∀ p, SymbolMonitor.getHistoricalPrice s (now - PRICE_SLOPE_LOOKBACK_MS) = some p →
          0 < p →
          (SymbolMonitor.priceSlopeSection s now).priceSlope
            = params.PRICE_SLOPE_ALPHA * (((s.lastPrice - p) / p) / 2)
              + (1 - params.PRICE_SLOPE_ALPHA) * s.priceSlope)
        ∧ (SymbolMonitor.getHistoricalPrice s (now - PRICE_SLOPE_LOOKBACK_MS) = none →
          (SymbolMonitor.priceSlopeSection s now).priceSlope
            = params.PRICE_SLOPE_ALPHA * 0
              + (1 - params.PRICE_SLOPE_ALPHA) * s.priceSlope))
    ∧ (SymbolMonitor.priceSlopeSection s now).priceSlopeHist
        = s.priceSlopeHist.add ((SymbolMonitor.priceSlopeSection s now).priceSlope)
    ∧ (20 ≤ (s.priceSlopeHist.add ((SymbolMonitor.priceSlopeSection s now).priceSlope)).size →
        (SymbolMonitor.priceSlopeSection s now).priceSlopeSigma
          = popStdDev ((s.priceSlopeHist.add
              ((SymbolMonitor.priceSlopeSection s now).priceSlope)).toArray))
    ∧ ((s.priceSlopeHist.add ((SymbolMonitor.priceSlopeSection s now).priceSlope)).size < 20 →
        (SymbolMonitor.priceSlopeSection s now).priceSlopeSigma = s.priceSlopeSigma)
    ∧ (∀ sym tier, (SymbolMonitor.init sym tier).priceSlopeHist.capacity = 40) := by
  have hshape : ∃ v : ℝ, SymbolMonitor.priceSlopeSection s now
      = if 20 ≤ (s.priceSlopeHist.add v).size then
          { s with
            priceSlope := v
            priceSlopeHist := s.priceSlopeHist.add v
            priceSlopeSigma := popStdDev ((s.priceSlopeHist.add v).toArray) }
        else
          { s with
            priceSlope := v
            priceSlopeHist := s.priceSlopeHist.add v } := by
    simp only [SymbolMonitor.priceSlopeSection]
    by_cases h1 : 0 < s.lastPrice
    · by_cases h2 : 0 <
          (SymbolMonitor.getHistoricalPrice s (now - PRICE_SLOPE_LOOKBACK_MS)).getD s.lastPrice
      · refine ⟨params.PRICE_SLOPE_ALPHA *
            ((s.lastPrice -
                (SymbolMonitor.getHistoricalPrice s (now - PRICE_SLOPE_LOOKBACK_MS)).getD
                  s.lastPrice) /
              (SymbolMonitor.getHistoricalPrice s (now - PRICE_SLOPE_LOOKBACK_MS)).getD
                s.lastPrice /
              ((PRICE_SLOPE_LOOKBACK_MS : ℝ) / 1000)) +
            (1 - params.PRICE_SLOPE_ALPHA) * s.priceSlope, ?_⟩
        rw [if_pos h1, if_pos h2]
      · refine ⟨s.priceSlope, ?_⟩
        rw [if_pos h1, if_neg h2]
    · refine ⟨s.priceSlope, ?_⟩
      rw [if_neg h1]
  obtain ⟨v, hv⟩ := hshape
  have hslope : (SymbolMonitor.priceSlopeSection s now).priceSlope = v := by
    rw [hv]
    split_ifs <;> rfl
  refine ⟨rfl, ?_, ?_, ?_, ?_, ?_⟩
  · intro hlast
    constructor
    · intro p hp hpp
      simp only [SymbolMonitor.priceSlopeSection, hp, Option.getD_some, if_pos hlast,
        if_pos hpp]
      split_ifs <;>
        · show params.PRICE_SLOPE_ALPHA * ((s.lastPrice - p) / p / ((PRICE_SLOPE_LOOKBACK_MS : ℝ) / 1000)) + (1 - params.PRICE_SLOPE_ALPHA) * s.priceSlope = _
          norm_num [PRICE_SLOPE_LOOKBACK_MS]
    · intro hmiss
      simp only [SymbolMonitor.priceSlopeSection, hmiss, Option.getD_none, if_pos hlast]
      split_ifs <;>
        · show params.PRICE_SLOPE_ALPHA * ((s.lastPrice - s.lastPrice) / s.lastPrice / ((PRICE_SLOPE_LOOKBACK_MS : ℝ) / 1000)) + (1 - params.PRICE_SLOPE_ALPHA) * s.priceSlope = _
          norm_num
  · rw [hslope, hv]
    split_ifs <;> rfl
  · intro h20
    rw [hslope] at h20
    rw [hslope, hv, if_pos h20]
  · intro h20
    rw [hslope] at h20
    rw [hv, if_neg (by omega)]
  · intro sym tier
    rfl

/-- Counterexample to C5 as stated: with a single taker-buy trade of
quote notional `10^-7` in the last second (`buy = 10^-7`, `sell = 0`)
the source sets `takerFlowRatio = 100`, while the claimed formula
`buy / (sell + eps)` clipped to 100 gives 10. -/
theorem C5_taker_flow_counterexample :
    (SymbolMonitor.performPeriodicCalculations sTinyBuy 1000000).current1sTakerBuyVolume
        = 1 / 10 ^ 7
    ∧ (SymbolMonitor.performPeriodicCalculations sTinyBuy 1000000).current1sTakerSellVolume
        = 0
    ∧ (SymbolMonitor.performPeriodicCalculations sTinyBuy 1000000).takerFlowRatio = 100
    ∧ takerFlowRatioSpec (1 / 10 ^ 7) 0 = 10
    ∧ ((100 : ℝ) ≠ 10) := by
  have heval : ∀ fld : MonitorState → ℝ,
      fld (SymbolMonitor.performPeriodicCalculations sTinyBuy 1000000)
        = fld (SymbolMonitor.performPeriodicCalculations sTinyBuy 1000000) := fun _ => rfl
  refine ⟨?_, ?_, ?_, ?_, by norm_num⟩
  · simp [SymbolMonitor.performPeriodicCalculations, SymbolMonitor.volatilitySection,
      SymbolMonitor.updateVolatility, SymbolMonitor.tradeAggSection, SymbolMonitor.recentTrades,
      SymbolMonitor.ewmaSection, SymbolMonitor.priceBucketSection, SymbolMonitor.indicatorSection,
      SymbolMonitor.updateEMAAlignment, SymbolMonitor.updateRSI, SymbolMonitor.setRsiFromAverages,
      SymbolMonitor.updateMACD, SymbolMonitor.takerFlowSection, SymbolMonitor.accelSigmaSection,
      SymbolMonitor.priceSlopeSection, SymbolMonitor.getHistoricalPrice,
      CircularBuffer.add, CircularBuffer.toArray, CircularBuffer.size, CircularBuffer.getNewest,
      CircularBuffer.mkEmpty, CircularBuffer.setNewest,
      sTinyBuy, SymbolMonitor.init, params.PRICE_BUCKET_DURATION_MS, PRICE_SLOPE_LOOKBACK_MS,
      params.PRICE_SLOPE_ALPHA, params.EWMA_ALPHA_VOL_FAST, params.EWMA_ALPHA_VOL_SLOW,
      params.EWMA_ALPHA_VOL_MED, alphaTakerRatio, maxTakerRatio, eps8]
  · simp [SymbolMonitor.performPeriodicCalculations, SymbolMonitor.volatilitySection,
      SymbolMonitor.updateVolatility, SymbolMonitor.tradeAggSection, SymbolMonitor.recentTrades,
      SymbolMonitor.ewmaSection, SymbolMonitor.priceBucketSection, SymbolMonitor.indicatorSection,
      SymbolMonitor.updateEMAAlignment, SymbolMonitor.updateRSI, SymbolMonitor.setRsiFromAverages,
      SymbolMonitor.updateMACD, SymbolMonitor.takerFlowSection, SymbolMonitor.accelSigmaSection,
      SymbolMonitor.priceSlopeSection, SymbolMonitor.getHistoricalPrice,
      CircularBuffer.add, CircularBuffer.toArray, CircularBuffer.size, CircularBuffer.getNewest,
      CircularBuffer.mkEmpty, CircularBuffer.setNewest,
      sTinyBuy, SymbolMonitor.init, params.PRICE_BUCKET_DURATION_MS, PRICE_SLOPE_LOOKBACK_MS,
      params.PRICE_SLOPE_ALPHA, params.EWMA_ALPHA_VOL_FAST, params.EWMA_ALPHA_VOL_SLOW,
      params.EWMA_ALPHA_VOL_MED, alphaTakerRatio, maxTakerRatio, eps8]
  · simp [SymbolMonitor.performPeriodicCalculations, SymbolMonitor.volatilitySection,
      SymbolMonitor.updateVolatility, SymbolMonitor.tradeAggSection, SymbolMonitor.recentTrades,
      SymbolMonitor.ewmaSection, SymbolMonitor.priceBucketSection, SymbolMonitor.indicatorSection,
      SymbolMonitor.updateEMAAlignment, SymbolMonitor.updateRSI, SymbolMonitor.setRsiFromAverages,
      SymbolMonitor.updateMACD, SymbolMonitor.takerFlowSection, SymbolMonitor.accelSigmaSection,
      SymbolMonitor.priceSlopeSection, SymbolMonitor.getHistoricalPrice,
      CircularBuffer.add, CircularBuffer.toArray, CircularBuffer.size, CircularBuffer.getNewest,
      CircularBuffer.mkEmpty, CircularBuffer.setNewest,
      sTinyBuy, SymbolMonitor.init, params.PRICE_BUCKET_DURATION_MS, PRICE_SLOPE_LOOKBACK_MS,
      params.PRICE_SLOPE_ALPHA, params.EWMA_ALPHA_VOL_FAST, params.EWMA_ALPHA_VOL_SLOW,
      params.EWMA_ALPHA_VOL_MED, alphaTakerRatio, maxTakerRatio, eps8]
  · rw [takerFlowRatioSpec]
    norm_num [eps8]

/-- C5 (amended): each periodic computation sets, from the 1-second
taker buy/sell quote volumes, `takerFlowImbalance =
(buy - sell) / (buy + sell + eps)`, `takerFlowMagnitude = buy + sell`,
`takerFlowRatio = min(buy / sell, 100)` when `sell > 0`, else 100 when
`buy > 0`, else 0 (not `buy / (sell + eps)` clipped), and
`takerRatioEwma` as an EWMA with alpha 0.20 of the clipped ratio. -/
theorem C5_taker_flow (s : MonitorState) (now : ℤ) :
    (SymbolMonitor.performPeriodicCalculations s now
        = SymbolMonitor.priceSlopeSection
            (SymbolMonitor.accelSigmaSection (SymbolMonitor.takerFlowSection
              (SymbolMonitor.indicatorSection (SymbolMonitor.priceBucketSection
                (SymbolMonitor.ewmaSection (SymbolMonitor.tradeAggSection
                  (SymbolMonitor.volatilitySection s now) now)) now)))) now)
    ∧ (SymbolMonitor.tradeAggSection s now).current1sTakerBuyVolume
        = (((SymbolMonitor.recentTrades s now).filter (fun t => !t.isBuyerMaker)).map
            (fun t => t.price * t.quantity)).sum
    ∧ (SymbolMonitor.tradeAggSection s now).current1sTakerSellVolume
        = (((SymbolMonitor.recentTrades s now).filter (fun t => t.isBuyerMaker)).map
            (fun t => t.price * t.quantity)).sum
    ∧ (SymbolMonitor.takerFlowSection s).takerFlowImbalance
        = (s.current1sTakerBuyVolume - s.current1sTakerSellVolume)
          / (s.current1sTakerBuyVolume + s.current1sTakerSellVolume + eps8)
    ∧ (SymbolMonitor.takerFlowSection s).takerFlowMagnitude
        = s.current1sTakerBuyVolume + s.current1sTakerSellVolume
    ∧ (SymbolMonitor.takerFlowSection s).takerFlowRatio
        = (if 0 < s.current1sTakerSellVolume then
            min (s.current1sTakerBuyVolume / s.current1sTakerSellVolume) 100
          else if 0 < s.current1sTakerBuyVolume then 100 else 0)
    ∧ (SymbolMonitor.takerFlowSection s).takerRatioEwma
        = 0.20 * (SymbolMonitor.takerFlowSection s).takerFlowRatio
          + (1 - 0.20) * s.takerRatioEwma := by
  refine ⟨rfl, rfl, rfl, rfl, rfl, ?_, ?_⟩
  · simp only [SymbolMonitor.takerFlowSection]
    split_ifs with h1 h2
    · rw [maxTakerRatio]
    · rw [maxTakerRatio]
      norm_num
    · rw [maxTakerRatio]
      norm_num
  · simp only [SymbolMonitor.takerFlowSection]
    rw [alphaTakerRatio]

/-- C6: decoding the tape CSV encoding returns the original bar, for
every bar whose five fields are non-negative with terminating decimal
expansions (the model of finite non-negative doubles): the encoder
writes the five numbers in order open, high, low, close, volume joined
by commas, the decoder splits on commas and parses each number. -/
theorem C6_tape_csv_round_trip (b : TapeBar)
    (h1 : 0 ≤ b.open_) (h2 : 0 ≤ b.high) (h3 : 0 ≤ b.low) (h4 : 0 ≤ b.close)
    (h5 : 0 ≤ b.volume)
    (t1 : terminatingDec b.open_) (t2 : terminatingDec b.high)
    (t3 : terminatingDec b.low) (t4 : terminatingDec b.close)
    (t5 : terminatingDec b.volume) :
    decodeBar (encodeBar b) = some b := by
  obtain ⟨fo, fh, fl, fc, fv⟩ := b
  simp only [encodeBar, decodeBar]
  rw [splitOnChar_append _ _ _ (comma_not_mem_ratToChars _),
    splitOnChar_append _ _ _ (comma_not_mem_ratToChars _),
    splitOnChar_append _ _ _ (comma_not_mem_ratToChars _),
    splitOnChar_append _ _ _ (comma_not_mem_ratToChars _),
    splitOnChar_of_not_mem _ _ (comma_not_mem_ratToChars _)]
  simp only [parseDecimal_ratToChars fo h1 t1, parseDecimal_ratToChars fh h2 t2,
    parseDecimal_ratToChars fl h3 t3, parseDecimal_ratToChars fc h4 t4,
    parseDecimal_ratToChars fv h5 t5]

/-- Witness for C6 at a concrete bar: `(101.25, 0.5, 3, 0.07, 1000)`
encodes to `"101.25,0.5,3,0.07,1000"` and decodes back to itself. -/
theorem C6_tape_csv_round_trip_witness :
    decodeBar (encodeBar ⟨405 / 4, 1 / 2, 3, 7 / 100, 1000⟩)
      = some ⟨405 / 4, 1 / 2, 3, 7 / 100, 1000⟩ :=
  C6_tape_csv_round_trip ⟨405 / 4, 1 / 2, 3, 7 / 100, 1000⟩
    (by norm_num) (by norm_num) (by norm_num) (by norm_num) (by norm_num)
    (by norm_num [terminatingDec, decExp]; decide)
    (by norm_num [terminatingDec, decExp]; decide)
    (by norm_num [terminatingDec, decExp]; decide)
    (by norm_num [terminatingDec, decExp]; decide)
    (by norm_num [terminatingDec, decExp]; decide)

end SignalGate
